import Mathlib

/-!
Verification of the colour extraction and matching pipeline of the
image-analyses-colour-matcher repository.

The Python sources are embedded shallowly:

* `color_analyzer.py` — `rgb_to_lab`, `calculate_color_difference`
  (CIE76 ΔE), `extract_dominant_colors` and the spatial-analysis helpers
  `_classify_distribution`, `_analyze_regional_coverage`,
  `_find_primary_areas`, `_describe_regions`, `_analyze_color_location`.
* `color_matcher.py` — `find_matches`, `find_best_match`.
* `pencil_database.py` — the per-brand pencil tables and their getters.

Machine floats are modelled by exact arithmetic (`ℚ` where the Python code
only performs field operations and comparisons, `ℝ` where it takes square
roots or real powers).  External collaborators (PIL image conversion and
resizing, scikit-learn's KMeans) are modelled as oracle parameters of the
extraction routine, so that every raise-site of the Python code is an
`Except.error` of the corresponding oracle.
-/

set_option maxHeartbeats 1000000

/-- An RGB triple as stored in the catalog and produced by extraction. -/
structure Rgb where
  r : ℕ
  g : ℕ
  b : ℕ
deriving DecidableEq, Repr

/-- A valid u8 triple: every channel is below 256. -/
def Rgb.valid (c : Rgb) : Prop := c.r < 256 ∧ c.g < 256 ∧ c.b < 256

instance (c : Rgb) : Decidable c.valid := by
  unfold Rgb.valid
  infer_instance

/-- The sRGB gamma correction of `color_analyzer.rgb_to_lab`:
`np.where(rgb > 0.04045, ((rgb + 0.055) / 1.055) ** 2.4, rgb / 12.92)`. -/
noncomputable def gammaCorrect (v : ℝ) : ℝ :=
  if 0.04045 < v then ((v + 0.055) / 1.055) ^ (2.4 : ℝ) else v / 12.92

/-- The XYZ→LAB transfer function of `color_analyzer.rgb_to_lab`:
`np.where(xyz > 0.008856, xyz ** (1/3), 7.787 * xyz + 16/116)`. -/
noncomputable def labF (t : ℝ) : ℝ :=
  if 0.008856 < t then t ^ ((1 : ℝ) / 3) else 7.787 * t + 16 / 116

/-- A LAB colour value. -/
@[ext]
structure Lab where
  l : ℝ
  a : ℝ
  b : ℝ

/-- Source `color_analyzer.rgb_to_lab`: normalise to [0,1], gamma-correct, apply the
sRGB matrix, normalise by the D65 white point, convert to LAB. -/
noncomputable def rgb_to_lab (c : Rgb) : Lab :=
  let lr := gammaCorrect ((c.r : ℝ) / 255)
  let lg := gammaCorrect ((c.g : ℝ) / 255)
  let lb := gammaCorrect ((c.b : ℝ) / 255)
  let fx := labF ((0.4124564 * lr + 0.3575761 * lg + 0.1804375 * lb) / 0.95047)
  let fy := labF ((0.2126729 * lr + 0.7151522 * lg + 0.0721750 * lb) / 1.00000)
  let fz := labF ((0.0193339 * lr + 0.1191920 * lg + 0.9503041 * lb) / 1.08883)
  ⟨116 * fy - 16, 500 * (fx - fy), 200 * (fy - fz)⟩

/-- Source `color_analyzer.calculate_color_difference`: CIE76 ΔE, the Euclidean
distance between the two LAB vectors. -/
noncomputable def calculate_color_difference (c1 c2 : Rgb) : ℝ :=
  Real.sqrt (((rgb_to_lab c1).l - (rgb_to_lab c2).l) ^ 2
    + ((rgb_to_lab c1).a - (rgb_to_lab c2).a) ^ 2
    + ((rgb_to_lab c1).b - (rgb_to_lab c2).b) ^ 2)

/-! ### Pencil catalog (`pencil_database.py`) and matcher (`color_matcher.py`) -/

/-- A pencil row as stored in the per-brand tables of `pencil_database.py`
(brand is added by the getters, not stored). -/
structure RawPencil where
  name : String
  code : String
  rgb : Rgb
deriving DecidableEq, Repr

/-- A pencil row as returned by the `PencilDatabase` getters. -/
structure Pencil where
  brand : String
  name : String
  code : String
  rgb : Rgb
deriving DecidableEq, Repr

/-- Source `PencilDatabase`: six read-only per-brand tables. -/
structure PencilDatabase where
  prismacolor_pencils : List RawPencil
  faber_castell_pencils : List RawPencil
  caran_dache_pencils : List RawPencil
  derwent_pencils : List RawPencil
  staedtler_pencils : List RawPencil
  koh_i_noor_pencils : List RawPencil
deriving DecidableEq, Repr

/-- Adding the `brand` column to a per-brand table, as the getters do. -/
def brandRows (b : String) (l : List RawPencil) : List Pencil :=
  l.map (fun p => ⟨b, p.name, p.code, p.rgb⟩)

/-- Source `PencilDatabase.get_all_pencils`: concatenate the six branded tables. -/
def PencilDatabase.get_all_pencils (db : PencilDatabase) : List Pencil :=
  brandRows ("Prismacolor") db.prismacolor_pencils
    ++ brandRows ("Faber Castell") db.faber_castell_pencils
    ++ brandRows ("Caran d'Ache") db.caran_dache_pencils
    ++ brandRows ("Derwent") db.derwent_pencils
    ++ brandRows ("Staedtler") db.staedtler_pencils
    ++ brandRows ("Koh-I-Noor") db.koh_i_noor_pencils

/-- Source `PencilDatabase.get_prismacolor_pencils`. -/
def PencilDatabase.get_prismacolor_pencils (db : PencilDatabase) : List Pencil :=
  brandRows ("Prismacolor") db.prismacolor_pencils

/-- Source `PencilDatabase.get_faber_castell_pencils`. -/
def PencilDatabase.get_faber_castell_pencils (db : PencilDatabase) : List Pencil :=
  brandRows ("Faber Castell") db.faber_castell_pencils

/-- A match record as built by `ColorMatcher.find_matches`. -/
structure ColorMatch where
  brand : String
  name : String
  code : String
  pencil_rgb : Rgb
  target_rgb : Rgb
  color_difference : ℝ

/-- The match dictionary built for one pencil in `find_matches`. -/
noncomputable def mkMatch (target : Rgb) (p : Pencil) : ColorMatch :=
  ⟨p.brand, p.name, p.code, p.rgb, target, calculate_color_difference target p.rgb⟩

/-- Ascending comparison on `color_difference`, the sort key of `find_matches`. -/
def diffLE (a b : ColorMatch) : Prop := a.color_difference ≤ b.color_difference

noncomputable instance : DecidableRel diffLE := fun a b =>
  inferInstanceAs (Decidable (a.color_difference ≤ b.color_difference))

instance : IsTotal ColorMatch diffLE := ⟨fun a b => le_total _ _⟩

instance : IsTrans ColorMatch diffLE := ⟨fun _ _ _ => le_trans⟩

/-- Source `ColorMatcher.find_matches`: score every catalog pencil, keep those within
`max_difference`, sort ascending by difference, then keep the first
`max_matches` Prismacolor entries followed by the first `max_matches`
Faber Castell entries. -/
noncomputable def find_matches (target : Rgb) (db : PencilDatabase)
    (max_matches : ℕ) (max_difference : ℝ) : List ColorMatch :=
  let all_pencils := db.get_all_pencils
  let kept := (all_pencils.map (mkMatch target)).filter
    (fun m => decide (m.color_difference ≤ max_difference))
  let sorted := kept.insertionSort diffLE
  let prismacolor_matches :=
    (sorted.filter (fun m => decide (m.brand = "Prismacolor"))).take max_matches
  let faber_castell_matches :=
    (sorted.filter (fun m => decide (m.brand = "Faber Castell"))).take max_matches
  prismacolor_matches ++ faber_castell_matches

/-- The pencil sequence scanned by `ColorMatcher.find_best_match`: the brand
table for the two recognised brand filters, the whole catalog otherwise
(`if brand:` is false for `None` and for the empty string). -/
def scannedPencils (db : PencilDatabase) (brand : Option String) : List Pencil :=
  match brand with
  | none => db.get_all_pencils
  | some b =>
    if b = "" then db.get_all_pencils
    else if b = "Prismacolor" then db.get_prismacolor_pencils
    else if b = "Faber Castell" then db.get_faber_castell_pencils
    else db.get_all_pencils

/-- One step of the `find_best_match` scan: replace the current best match
when the new difference is strictly smaller (the initial `min_difference`
is `float('inf')`, so the first pencil is always taken). -/
noncomputable def bestStep (target : Rgb) (acc : Option ColorMatch) (p : Pencil) :
    Option ColorMatch :=
  match acc with
  | none => some (mkMatch target p)
  | some m =>
    if calculate_color_difference target p.rgb < m.color_difference then
      some (mkMatch target p)
    else
      some m

/-- Source `ColorMatcher.find_best_match`: linear scan for the minimum difference. -/
noncomputable def find_best_match (target : Rgb) (db : PencilDatabase)
    (brand : Option String) : Option ColorMatch :=
  (scannedPencils db brand).foldl (bestStep target) none

/-! ### Generic facts about `find_matches` -/

/-- The Prismacolor segment of the `find_matches` result. -/
noncomputable def prismaSegment (target : Rgb) (db : PencilDatabase)
    (max_matches : ℕ) (max_difference : ℝ) : List ColorMatch :=
  ((((db.get_all_pencils.map (mkMatch target)).filter
      (fun m => decide (m.color_difference ≤ max_difference))).insertionSort
        diffLE).filter (fun m => decide (m.brand = "Prismacolor"))).take max_matches

/-- The Faber Castell segment of the `find_matches` result. -/
noncomputable def faberSegment (target : Rgb) (db : PencilDatabase)
    (max_matches : ℕ) (max_difference : ℝ) : List ColorMatch :=
  ((((db.get_all_pencils.map (mkMatch target)).filter
      (fun m => decide (m.color_difference ≤ max_difference))).insertionSort
        diffLE).filter (fun m => decide (m.brand = "Faber Castell"))).take max_matches

/-! ### A concrete two-pencil catalog used to exercise the matcher -/

/-- Example Prismacolor table row (a dark gray, distinct from black). -/
def exPrismaRaw : RawPencil := ⟨"Dark Gray", "PC1", ⟨3, 3, 3⟩⟩

/-- Example Faber Castell table row (black). -/
def exFaberRaw : RawPencil := ⟨"Jet Black", "FC1", ⟨0, 0, 0⟩⟩

/-- Example catalog with one Prismacolor and one Faber Castell pencil. -/
def exDb : PencilDatabase := ⟨[exPrismaRaw], [exFaberRaw], [], [], [], []⟩

/-- Example target colour: black. -/
def exTarget : Rgb := ⟨0, 0, 0⟩

/-- The branded Prismacolor row of `exDb`. -/
def exPPencil : Pencil := ⟨"Prismacolor", "Dark Gray", "PC1", ⟨3, 3, 3⟩⟩

/-- The branded Faber Castell row of `exDb`. -/
def exFPencil : Pencil := ⟨"Faber Castell", "Jet Black", "FC1", ⟨0, 0, 0⟩⟩

/-- A catalog containing a single Derwent pencil and nothing else. -/
def derwentOnlyDb : PencilDatabase :=
  ⟨[], [], [], [⟨"Olive Green", "O1", ⟨100, 100, 50⟩⟩], [], []⟩

/-! ### Spatial analysis (`color_analyzer.py`) -/

/-- The value `np.max` over a list of naturals (used only on nonempty coordinate
lists, where the 0 default is harmless). -/
def natMax (l : List ℕ) : ℕ := l.foldr max 0

/-- The value `np.min` over a nonempty list of naturals. -/
def natMin : List ℕ → ℕ
  | [] => 0
  | [a] => a
  | a :: b :: t => min a (natMin (b :: t))

/-- The mean of a coordinate list, as an exact rational. -/
def meanQ (l : List ℕ) : ℚ := (l.map (fun n => (n : ℚ))).sum / l.length

/-- The population variance of a coordinate list (`np.std` squared). -/
def varQ (l : List ℕ) : ℚ := (l.map (fun n => ((n : ℚ) - meanQ l) ^ 2)).sum / l.length

/-- Source `color_analyzer._classify_distribution`: spreads and standard deviations
normalised by the image dimensions, checked in source order. -/
noncomputable def _classify_distribution (ys xs : List ℕ) (height width : ℕ) :
    String :=
  if ys.length = 0 then "none"
  else
    let y_spread : ℝ := ((natMax ys - natMin ys : ℕ) : ℝ) / (height : ℝ)
    let x_spread : ℝ := ((natMax xs - natMin xs : ℕ) : ℝ) / (width : ℝ)
    let y_std : ℝ := Real.sqrt ((varQ ys : ℚ) : ℝ) / (height : ℝ)
    let x_std : ℝ := Real.sqrt ((varQ xs : ℚ) : ℝ) / (width : ℝ)
    if 0.7 < y_spread ∧ 0.7 < x_spread then "widespread"
    else if y_std < 0.15 ∧ x_std < 0.15 then "concentrated"
    else if y_spread < 0.3 ∨ x_spread < 0.3 then "localized"
    else "scattered"

/-- The spec's decision table for the distribution classifier, with every
normalised comparison rephrased as an equivalent exact integer/rational
comparison, so that the table is decidable. -/
def classifySpecTable (ys xs : List ℕ) (height width : ℕ) : String :=
  if 7 * height < 10 * (natMax ys - natMin ys)
      ∧ 7 * width < 10 * (natMax xs - natMin xs) then "widespread"
  else if 400 * varQ ys < 9 * (height : ℚ) ^ 2
      ∧ 400 * varQ xs < 9 * (width : ℚ) ^ 2 then "concentrated"
  else if 10 * (natMax ys - natMin ys) < 3 * height
      ∨ 10 * (natMax xs - natMin xs) < 3 * width then "localized"
  else "scattered"

/-- Regional coverage percentages, all exact rationals. -/
structure Coverage where
  top : ℚ
  middle : ℚ
  bottom : ℚ
  left : ℚ
  center : ℚ
  right : ℚ
deriving DecidableEq, Repr

/-- The all-zero coverage returned for empty masks and on failure. -/
def zeroCoverage : Coverage := ⟨0, 0, 0, 0, 0, 0⟩

/-- Source `color_analyzer._analyze_regional_coverage`: percentage of matching
pixels in each vertical and horizontal third, relative to the matching
pixel count. -/
def _analyze_regional_coverage (ys xs : List ℕ) (height width : ℕ) : Coverage :=
  if ys.length = 0 then zeroCoverage
  else
    let total : ℚ := (ys.length : ℚ)
    let cTop := ys.countP (fun (y : ℕ) => decide ((y : ℚ) < (height : ℚ) / 3))
    let cMid := ys.countP (fun (y : ℕ) => decide ((height : ℚ) / 3 ≤ (y : ℚ)
      ∧ (y : ℚ) < 2 * (height : ℚ) / 3))
    let cBot := ys.countP (fun (y : ℕ) => decide (2 * (height : ℚ) / 3 ≤ (y : ℚ)))
    let cLeft := xs.countP (fun (x : ℕ) => decide ((x : ℚ) < (width : ℚ) / 3))
    let cCen := xs.countP (fun (x : ℕ) => decide ((width : ℚ) / 3 ≤ (x : ℚ)
      ∧ (x : ℚ) < 2 * (width : ℚ) / 3))
    let cRight := xs.countP (fun (x : ℕ) => decide (2 * (width : ℚ) / 3 ≤ (x : ℚ)))
    ⟨(cTop : ℚ) / total * 100, (cMid : ℚ) / total * 100, (cBot : ℚ) / total * 100,
      (cLeft : ℚ) / total * 100, (cCen : ℚ) / total * 100, (cRight : ℚ) / total * 100⟩

/-- Source `color_analyzer._find_primary_areas`: vertical thirds above 20% coverage,
falling back to horizontal thirds, falling back to `["scattered"]`. -/
def _find_primary_areas (c : Coverage) : List String :=
  let vertical := (if 20 < c.top then ["top"] else [])
    ++ (if 20 < c.middle then ["middle"] else [])
    ++ (if 20 < c.bottom then ["bottom"] else [])
  let primary := if vertical = [] then
      (if 20 < c.left then ["left"] else [])
        ++ (if 20 < c.center then ["center"] else [])
        ++ (if 20 < c.right then ["right"] else [])
    else vertical
  if primary = [] then ["scattered"] else primary

/-- The `area_descriptions` mapping of `_describe_regions`. -/
def areaDescription (a : String) : Option String :=
  if a = "top" then some ("Upper portion")
  else if a = "middle" then some ("Middle section")
  else if a = "bottom" then some ("Lower portion")
  else if a = "left" then some ("Left side")
  else if a = "center" then some ("Center area")
  else if a = "right" then some ("Right side")
  else none

/-- Source `color_analyzer._describe_regions` (its `coverage` argument is unused in
the source as well). -/
def _describe_regions (c : Coverage) (primary_areas : List String) : List String :=
  if primary_areas = [] ∨ primary_areas = ["scattered"] then ["Throughout the image"]
  else
    let regions := primary_areas.filterMap areaDescription
    let regions :=
      if "top" ∈ primary_areas ∧ "bottom" ∈ primary_areas then
        if "Top and bottom edges" ∉ regions then ["Top and bottom edges"] else regions
      else if "left" ∈ primary_areas ∧ "right" ∈ primary_areas then
        if "Left and right sides" ∉ regions then ["Left and right sides"] else regions
      else regions
    if regions = [] then ["Various areas"] else regions

/-- The location-information record built by `_analyze_color_location`. -/
structure LocationInfo where
  regions : List String
  distribution : String
  primary_areas : List String
  coverage : Coverage

/-- Source `color_analyzer._analyze_color_location`: reshape the flat cluster
assignment to the image grid (the reshape failure of a mismatched length is
the source's `except` branch), collect the matching coordinates in row-major
order, and derive distribution, coverage, primary areas and regions. -/
noncomputable def _analyze_color_location (height width : ℕ) (labels : List ℕ)
    (cluster_id : ℕ) : LocationInfo :=
  if labels.length ≠ height * width then
    ⟨["Analysis unavailable"], "unknown", [], zeroCoverage⟩
  else if (List.range (height * width)).filter
      (fun i => decide (labels.getD i 0 = cluster_id)) = [] then
    ⟨["Not found"], "scattered", [], zeroCoverage⟩
  else
    ⟨_describe_regions
        (_analyze_regional_coverage
          (((List.range (height * width)).filter
            (fun i => decide (labels.getD i 0 = cluster_id))).map (fun i => i / width))
          (((List.range (height * width)).filter
            (fun i => decide (labels.getD i 0 = cluster_id))).map (fun i => i % width))
          height width)
        (_find_primary_areas
          (_analyze_regional_coverage
            (((List.range (height * width)).filter
              (fun i => decide (labels.getD i 0 = cluster_id))).map (fun i => i / width))
            (((List.range (height * width)).filter
              (fun i => decide (labels.getD i 0 = cluster_id))).map (fun i => i % width))
            height width)),
      _classify_distribution
        (((List.range (height * width)).filter
          (fun i => decide (labels.getD i 0 = cluster_id))).map (fun i => i / width))
        (((List.range (height * width)).filter
          (fun i => decide (labels.getD i 0 = cluster_id))).map (fun i => i % width))
        height width,
      _find_primary_areas
        (_analyze_regional_coverage
          (((List.range (height * width)).filter
            (fun i => decide (labels.getD i 0 = cluster_id))).map (fun i => i / width))
          (((List.range (height * width)).filter
            (fun i => decide (labels.getD i 0 = cluster_id))).map (fun i => i % width))
          height width),
      _analyze_regional_coverage
        (((List.range (height * width)).filter
          (fun i => decide (labels.getD i 0 = cluster_id))).map (fun i => i / width))
        (((List.range (height * width)).filter
          (fun i => decide (labels.getD i 0 = cluster_id))).map (fun i => i % width))
        height width⟩

/-- A percentage lying in [0, 100]. -/
def unitPct (x : ℚ) : Prop := 0 ≤ x ∧ x ≤ 100

/-! ### Colour extraction (`extract_dominant_colors`) -/

/-- A decoded image as handed to `extract_dominant_colors`. -/
structure PImage where
  mode : String
  width : ℕ
  height : ℕ
  pixels : List Rgb

/-- A fitted KMeans model: integer-rounded cluster centres and the labels of
the fitted samples. -/
structure KMeansModel where
  centers : List Rgb
  labels : List ℕ

/-- The external collaborators of `extract_dominant_colors` (PIL conversion
and resampling, scikit-learn KMeans); each fallible call is an `Except`. -/
structure ExtractionEnv where
  convert : PImage → String → Except String PImage
  resample : PImage → ℕ × ℕ → Except String PImage
  kmFit : ℕ → List Rgb → Except String KMeansModel
  kmPredict : KMeansModel → List Rgb → List ℕ

/-- Two-or-more lowercase hex digits, as printed by `"{:02x}".format`. -/
def hex2 (n : ℕ) : String :=
  if n < 16 then String.mk ['0', Nat.digitChar n]
  else String.mk (Nat.toDigits 16 n)

/-- The `#rrggbb` string of `extract_dominant_colors`. -/
def hexColor (c : Rgb) : String := "#" ++ hex2 c.r ++ hex2 c.g ++ hex2 c.b

/-- Model of `colorsys.rgb_to_hsv` on channel values normalised to [0,1]. -/
def rgb_to_hsv (c : Rgb) : ℚ × ℚ × ℚ :=
  let r : ℚ := (c.r : ℚ) / 255
  let g : ℚ := (c.g : ℚ) / 255
  let b : ℚ := (c.b : ℚ) / 255
  let maxc := max r (max g b)
  let minc := min r (min g b)
  if minc = maxc then (0, 0, maxc)
  else
    let s := (maxc - minc) / maxc
    let rc := (maxc - r) / (maxc - minc)
    let gc := (maxc - g) / (maxc - minc)
    let bc := (maxc - b) / (maxc - minc)
    let h := if r = maxc then bc - gc
      else if g = maxc then 2 + rc - bc
      else 4 + gc - rc
    (Int.fract (h / 6), s, maxc)

/-- One entry of the list returned by `extract_dominant_colors`. -/
structure ExtractedColor where
  rgb : Rgb
  hex : String
  percentage : ℚ
  hsv : ℚ × ℚ × ℚ
  brightness : ℚ
  location_info : LocationInfo

/-- Descending comparison on `percentage`, the sort key of the final
`color_info.sort(key=…, reverse=True)`. -/
def pctGE (a b : ExtractedColor) : Prop := b.percentage ≤ a.percentage

instance : DecidableRel pctGE := fun a b =>
  inferInstanceAs (Decidable (b.percentage ≤ a.percentage))

instance : IsTotal ExtractedColor pctGE := ⟨fun a b => le_total b.percentage a.percentage⟩

instance : IsTrans ExtractedColor pctGE := ⟨fun _ _ _ h1 h2 => le_trans h2 h1⟩

/-- The mean channel brightness used by the pixel filter and per colour. -/
def meanBrightness (c : Rgb) : ℚ := ((c.r + c.g + c.b : ℕ) : ℚ) / 3

/-- The pixel set handed to the KMeans fit: pixels whose mean brightness is
strictly between 20 and 235, falling back to all pixels when fewer than
`num_colors` survive. -/
def pickPixels (img : PImage) (num_colors : ℕ) : List Rgb :=
  if (img.pixels.filter
      (fun p => decide (20 < meanBrightness p ∧ meanBrightness p < 235))).length
      < num_colors then
    img.pixels
  else
    img.pixels.filter
      (fun p => decide (20 < meanBrightness p ∧ meanBrightness p < 235))

/-- The per-cluster records of `extract_dominant_colors`: one entry per
cluster centre, with the percentage taken over the fitted labels and the
location analysis over the full-image re-prediction. -/
noncomputable def mkColorInfo (env : ExtractionEnv) (img : PImage)
    (km : KMeansModel) : List ExtractedColor :=
  km.centers.enum.map (fun ic =>
    { rgb := ic.2
      hex := hexColor ic.2
      percentage := ((km.labels.countP (fun l => decide (l = ic.1)) : ℕ) : ℚ)
        / ((km.labels.length : ℕ) : ℚ) * 100
      hsv := rgb_to_hsv ic.2
      brightness := meanBrightness ic.2
      location_info := _analyze_color_location img.height img.width
        (env.kmPredict km img.pixels) ic.1 })

/-- The body of `extract_dominant_colors` up to its `try`: mode conversion,
downscaling, brightness filtering (with the too-few-pixels fallback),
KMeans fit, full-image re-prediction, per-cluster records, and the final
descending sort.  Any exception of a collaborator propagates as `.error`. -/
noncomputable def extractColorsCore (env : ExtractionEnv) (image : PImage)
    (num_colors : ℕ) (max_size : ℕ) : Except String (List ExtractedColor) :=
  (if image.mode ≠ "RGB" then env.convert image ("RGB") else Except.ok image).bind
    (fun img1 =>
      (if max_size < max img1.width img1.height then
          env.resample img1
            (img1.width * max_size / max img1.width img1.height,
              img1.height * max_size / max img1.width img1.height)
        else Except.ok img1).bind
        (fun img2 =>
          (env.kmFit num_colors (pickPixels img2 num_colors)).bind
            (fun km => Except.ok ((mkColorInfo env img2 km).insertionSort pctGE))))

/-- Source `extract_dominant_colors`: the `try`/`except` wrapper around the body —
any exception is swallowed and surfaced as the empty list. -/
noncomputable def extract_dominant_colors (env : ExtractionEnv) (image : PImage)
    (num_colors : ℕ) (max_size : ℕ) : List ExtractedColor :=
  match extractColorsCore env image num_colors max_size with
  | .ok l => l
  | .error _ => []

instance : Inhabited ExtractedColor :=
  ⟨⟨⟨0, 0, 0⟩, "", 0, (0, 0, 0), 0, ⟨[], "", [], zeroCoverage⟩⟩⟩

/-- An environment whose KMeans fit always fails. -/
def failEnv : ExtractionEnv :=
  ⟨fun i _ => .ok i, fun i _ => .ok i, fun _ _ => .error ("kmeans failure"),
    fun _ pts => pts.map (fun _ => 0)⟩

/-- An environment whose collaborators never fail for at least one cluster:
conversion and resampling are identities, the fit returns `k` black centres
and `k` zero labels. -/
def okEnv : ExtractionEnv :=
  ⟨fun i _ => .ok i, fun i _ => .ok i,
    fun k _ => if 1 ≤ k then
        .ok ⟨List.replicate k ⟨0, 0, 0⟩, List.replicate k 0⟩
      else .error ("fit"),
    fun _ pts => pts.map (fun _ => 0)⟩

/-- A 1×1 RGB image with a single black pixel. -/
def okImage : PImage := ⟨"RGB", 1, 1, [⟨0, 0, 0⟩]⟩

lemma gammaCorrect_nonneg {v : ℝ} (hv : 0 ≤ v) : 0 ≤ gammaCorrect v := by
  unfold gammaCorrect
  split
  · exact Real.rpow_nonneg (div_nonneg (by linarith) (by norm_num)) _
  · positivity

lemma pow_lt_of_lt_rpow_aux {a c : ℝ} (ha : 0 ≤ a) (n : ℕ) (e : ℝ)
    (he : e * n = 12) (h : c ^ n < a ^ 12) : c < a ^ e := by
  have h1 : (a ^ e) ^ n = a ^ 12 := by
    rw [← Real.rpow_natCast (a ^ e) n, ← Real.rpow_mul ha, he,
      show ((12:ℝ) = ((12:ℕ):ℝ)) by norm_num, Real.rpow_natCast]
  exact lt_of_pow_lt_pow_left₀ n (Real.rpow_nonneg ha _) (by rw [h1]; exact h)

/-- The linear branch just below u8 value 11 lies strictly below the power
branch just above it: `10/255/12.92 < ((11/255+0.055)/1.055)^2.4`. -/
lemma gamma_branch_gap :
    (10 : ℝ) / 255 / 12.92 < (((11:ℝ) / 255 + 0.055) / 1.055) ^ (2.4 : ℝ) := by
  have ha : (0:ℝ) ≤ ((11:ℝ) / 255 + 0.055) / 1.055 := by norm_num
  refine pow_lt_of_lt_rpow_aux ha 5 2.4 (by norm_num) ?_
  norm_num

/-- Strict monotonicity of the gamma correction on the 256 u8 grid points. -/
lemma gammaCorrect_strictMono_u8 {n m : ℕ} (hnm : n < m) (hm : m ≤ 255) :
    gammaCorrect ((n : ℝ) / 255) < gammaCorrect ((m : ℝ) / 255) := by
  have hcast : (n : ℝ) < (m : ℝ) := by exact_mod_cast hnm
  rcases le_or_lt m 10 with hm10 | hm11
  · -- both on the linear branch
    have hn10' : (n : ℝ) ≤ 10 := by exact_mod_cast (hnm.le.trans hm10)
    have hm10' : (m : ℝ) ≤ 10 := by exact_mod_cast hm10
    have hn' : ¬ (0.04045 : ℝ) < (n : ℝ) / 255 := by
      push_neg
      have h1 : (n : ℝ) / 255 ≤ 10 / 255 := by gcongr
      linarith [show (10:ℝ)/255 ≤ 0.04045 by norm_num]
    have hm' : ¬ (0.04045 : ℝ) < (m : ℝ) / 255 := by
      push_neg
      have h1 : (m : ℝ) / 255 ≤ 10 / 255 := by gcongr
      linarith [show (10:ℝ)/255 ≤ 0.04045 by norm_num]
    rw [gammaCorrect, if_neg hn', gammaCorrect, if_neg hm']
    gcongr
  · rcases le_or_lt 11 n with hn11 | hn10
    · -- both on the power branch
      have hn11' : (11 : ℝ) ≤ (n : ℝ) := by exact_mod_cast hn11
      have hm11' : (11 : ℝ) ≤ (m : ℝ) := by exact_mod_cast hm11
      have hn' : (0.04045 : ℝ) < (n : ℝ) / 255 := by
        have h1 : (11 : ℝ) / 255 ≤ (n : ℝ) / 255 := by gcongr
        linarith [show (0.04045:ℝ) < 11/255 by norm_num]
      have hm' : (0.04045 : ℝ) < (m : ℝ) / 255 := by
        have h1 : (11 : ℝ) / 255 ≤ (m : ℝ) / 255 := by gcongr
        linarith [show (0.04045:ℝ) < 11/255 by norm_num]
      rw [gammaCorrect, if_pos hn', gammaCorrect, if_pos hm']
      refine Real.rpow_lt_rpow (by positivity) ?_ (by norm_num)
      gcongr
    · -- n on the linear branch, m on the power branch
      have hn10' : (n : ℝ) ≤ 10 := by exact_mod_cast Nat.lt_succ_iff.mp hn10
      have hm11' : (11 : ℝ) ≤ (m : ℝ) := by exact_mod_cast hm11
      have hn' : ¬ (0.04045 : ℝ) < (n : ℝ) / 255 := by
        push_neg
        have h1 : (n : ℝ) / 255 ≤ 10 / 255 := by gcongr
        linarith [show (10:ℝ)/255 ≤ 0.04045 by norm_num]
      have hm' : (0.04045 : ℝ) < (m : ℝ) / 255 := by
        have h1 : (11 : ℝ) / 255 ≤ (m : ℝ) / 255 := by gcongr
        linarith [show (0.04045:ℝ) < 11/255 by norm_num]
      rw [gammaCorrect, if_neg hn', gammaCorrect, if_pos hm']
      have step1 : (n : ℝ) / 255 / 12.92 ≤ (10 : ℝ) / 255 / 12.92 := by gcongr
      have step2 : (((11:ℝ) / 255 + 0.055) / 1.055) ^ (2.4 : ℝ)
          ≤ (((m : ℝ) / 255 + 0.055) / 1.055) ^ (2.4 : ℝ) := by
        refine Real.rpow_le_rpow (by norm_num) ?_ (by norm_num)
        gcongr
      calc (n : ℝ) / 255 / 12.92 ≤ (10 : ℝ) / 255 / 12.92 := step1
        _ < (((11:ℝ) / 255 + 0.055) / 1.055) ^ (2.4 : ℝ) := gamma_branch_gap
        _ ≤ (((m : ℝ) / 255 + 0.055) / 1.055) ^ (2.4 : ℝ) := step2

lemma gammaCorrect_inj_u8 {n m : ℕ} (hn : n ≤ 255) (hm : m ≤ 255)
    (h : gammaCorrect ((n : ℝ) / 255) = gammaCorrect ((m : ℝ) / 255)) : n = m := by
  rcases lt_trichotomy n m with hlt | heq | hgt
  · exact absurd h (ne_of_lt (gammaCorrect_strictMono_u8 hlt hm))
  · exact heq
  · exact absurd h.symm (ne_of_lt (gammaCorrect_strictMono_u8 hgt hn))

/-- Strict monotonicity of the XYZ→LAB transfer function on `[0, ∞)`. -/
lemma labF_strictMono {s t : ℝ} (hs : 0 ≤ s) (hst : s < t) : labF s < labF t := by
  rcases le_or_lt t 0.008856 with ht | ht
  · -- both on the linear branch
    have hs' : ¬ (0.008856 : ℝ) < s := by push_neg; linarith
    have ht' : ¬ (0.008856 : ℝ) < t := by push_neg; linarith
    rw [labF, if_neg hs', labF, if_neg ht']
    linarith
  · rcases le_or_lt s 0.008856 with hs8 | hs8
    · -- s linear, t on the cube-root branch
      have hs' : ¬ (0.008856 : ℝ) < s := by push_neg; linarith
      rw [labF, if_neg hs', labF, if_pos ht]
      have hq : (7.787 * s + 16 / 116 : ℝ) ≤ 7.787 * 0.008856 + 16 / 116 := by linarith
      have hq0 : (0:ℝ) ≤ 7.787 * 0.008856 + 16 / 116 := by norm_num
      have hcube : (7.787 * 0.008856 + 16 / 116 : ℝ) ^ (3:ℕ) < t := by
        have : (7.787 * 0.008856 + 16 / 116 : ℝ) ^ (3:ℕ) < 0.008856 := by norm_num
        linarith
      have h1 : ((t ^ ((1:ℝ)/3)) : ℝ) ^ (3:ℕ) = t := by
        rw [← Real.rpow_natCast (t ^ ((1:ℝ)/3)) 3, ← Real.rpow_mul (by linarith)]
        norm_num
      have h2 : (7.787 * 0.008856 + 16 / 116 : ℝ) < t ^ ((1:ℝ)/3) := by
        refine lt_of_pow_lt_pow_left₀ 3 (Real.rpow_nonneg (by linarith) _) ?_
        rw [h1]
        exact hcube
      linarith
    · -- both on the cube-root branch
      rw [labF, if_pos hs8, labF, if_pos ht]
      exact Real.rpow_lt_rpow hs hst (by norm_num)

lemma labF_inj {s t : ℝ} (hs : 0 ≤ s) (ht : 0 ≤ t) (h : labF s = labF t) : s = t := by
  rcases lt_trichotomy s t with hlt | heq | hgt
  · exact absurd h (ne_of_lt (labF_strictMono hs hlt))
  · exact heq
  · exact absurd h.symm (ne_of_lt (labF_strictMono ht hgt))

/-- The map `rgb_to_lab` is injective on valid u8 triples. -/
lemma rgb_to_lab_inj {c1 c2 : Rgb} (h1 : c1.valid) (h2 : c2.valid)
    (h : rgb_to_lab c1 = rgb_to_lab c2) : c1 = c2 := by
  obtain ⟨hr1, hg1, hb1⟩ := h1
  obtain ⟨hr2, hg2, hb2⟩ := h2
  have g1r := gammaCorrect_nonneg (show (0:ℝ) ≤ (c1.r : ℝ) / 255 by positivity)
  have g1g := gammaCorrect_nonneg (show (0:ℝ) ≤ (c1.g : ℝ) / 255 by positivity)
  have g1b := gammaCorrect_nonneg (show (0:ℝ) ≤ (c1.b : ℝ) / 255 by positivity)
  have g2r := gammaCorrect_nonneg (show (0:ℝ) ≤ (c2.r : ℝ) / 255 by positivity)
  have g2g := gammaCorrect_nonneg (show (0:ℝ) ≤ (c2.g : ℝ) / 255 by positivity)
  have g2b := gammaCorrect_nonneg (show (0:ℝ) ≤ (c2.b : ℝ) / 255 by positivity)
  simp only [rgb_to_lab, Lab.mk.injEq] at h
  obtain ⟨hL, hA, hB⟩ := h
  have hfy : labF ((0.2126729 * gammaCorrect ((c1.r : ℝ) / 255)
        + 0.7151522 * gammaCorrect ((c1.g : ℝ) / 255)
        + 0.0721750 * gammaCorrect ((c1.b : ℝ) / 255)) / 1.00000)
      = labF ((0.2126729 * gammaCorrect ((c2.r : ℝ) / 255)
        + 0.7151522 * gammaCorrect ((c2.g : ℝ) / 255)
        + 0.0721750 * gammaCorrect ((c2.b : ℝ) / 255)) / 1.00000) := by
    linarith
  have hfx : labF ((0.4124564 * gammaCorrect ((c1.r : ℝ) / 255)
        + 0.3575761 * gammaCorrect ((c1.g : ℝ) / 255)
        + 0.1804375 * gammaCorrect ((c1.b : ℝ) / 255)) / 0.95047)
      = labF ((0.4124564 * gammaCorrect ((c2.r : ℝ) / 255)
        + 0.3575761 * gammaCorrect ((c2.g : ℝ) / 255)
        + 0.1804375 * gammaCorrect ((c2.b : ℝ) / 255)) / 0.95047) := by
    linarith
  have hfz : labF ((0.0193339 * gammaCorrect ((c1.r : ℝ) / 255)
        + 0.1191920 * gammaCorrect ((c1.g : ℝ) / 255)
        + 0.9503041 * gammaCorrect ((c1.b : ℝ) / 255)) / 1.08883)
      = labF ((0.0193339 * gammaCorrect ((c2.r : ℝ) / 255)
        + 0.1191920 * gammaCorrect ((c2.g : ℝ) / 255)
        + 0.9503041 * gammaCorrect ((c2.b : ℝ) / 255)) / 1.08883) := by
    linarith
  have hy := labF_inj (div_nonneg (by linarith) (by norm_num))
    (div_nonneg (by linarith) (by norm_num)) hfy
  have hx := labF_inj (div_nonneg (by linarith) (by norm_num))
    (div_nonneg (by linarith) (by norm_num)) hfx
  have hz := labF_inj (div_nonneg (by linarith) (by norm_num))
    (div_nonneg (by linarith) (by norm_num)) hfz
  rw [div_eq_div_iff (by norm_num) (by norm_num)] at hx hy hz
  have har : gammaCorrect ((c1.r : ℝ) / 255) = gammaCorrect ((c2.r : ℝ) / 255) := by
    linarith
  have hag : gammaCorrect ((c1.g : ℝ) / 255) = gammaCorrect ((c2.g : ℝ) / 255) := by
    linarith
  have hab : gammaCorrect ((c1.b : ℝ) / 255) = gammaCorrect ((c2.b : ℝ) / 255) := by
    linarith
  have hr := gammaCorrect_inj_u8 (Nat.lt_succ_iff.mp hr1) (Nat.lt_succ_iff.mp hr2) har
  have hg := gammaCorrect_inj_u8 (Nat.lt_succ_iff.mp hg1) (Nat.lt_succ_iff.mp hg2) hag
  have hb := gammaCorrect_inj_u8 (Nat.lt_succ_iff.mp hb1) (Nat.lt_succ_iff.mp hb2) hab
  cases c1
  cases c2
  simp_all

lemma calculate_color_difference_nonneg (c1 c2 : Rgb) :
    0 ≤ calculate_color_difference c1 c2 := Real.sqrt_nonneg _

lemma calculate_color_difference_symm (c1 c2 : Rgb) :
    calculate_color_difference c1 c2 = calculate_color_difference c2 c1 := by
  unfold calculate_color_difference
  congr 1
  ring

lemma calculate_color_difference_self (c : Rgb) :
    calculate_color_difference c c = 0 := by
  unfold calculate_color_difference
  simp

lemma calculate_color_difference_eq_zero_iff {c1 c2 : Rgb}
    (h1 : c1.valid) (h2 : c2.valid) :
    calculate_color_difference c1 c2 = 0 ↔ c1 = c2 := by
  constructor
  · intro h
    unfold calculate_color_difference at h
    have hsum := Real.sqrt_eq_zero'.mp h
    have s1 := sq_nonneg ((rgb_to_lab c1).l - (rgb_to_lab c2).l)
    have s2 := sq_nonneg ((rgb_to_lab c1).a - (rgb_to_lab c2).a)
    have s3 := sq_nonneg ((rgb_to_lab c1).b - (rgb_to_lab c2).b)
    have e1 : (rgb_to_lab c1).l = (rgb_to_lab c2).l := by nlinarith
    have e2 : (rgb_to_lab c1).a = (rgb_to_lab c2).a := by nlinarith
    have e3 : (rgb_to_lab c1).b = (rgb_to_lab c2).b := by nlinarith
    exact rgb_to_lab_inj h1 h2 (Lab.ext e1 e2 e3)
  · rintro rfl
    exact calculate_color_difference_self c1

lemma calculate_color_difference_pos {c1 c2 : Rgb}
    (h1 : c1.valid) (h2 : c2.valid) (hne : c1 ≠ c2) :
    0 < calculate_color_difference c1 c2 := by
  rcases lt_or_eq_of_le (calculate_color_difference_nonneg c1 c2) with h | h
  · exact h
  · exact absurd ((calculate_color_difference_eq_zero_iff h1 h2).mp h.symm) hne

lemma find_matches_eq_segments (target : Rgb) (db : PencilDatabase)
    (max_matches : ℕ) (max_difference : ℝ) :
    find_matches target db max_matches max_difference
      = prismaSegment target db max_matches max_difference
        ++ faberSegment target db max_matches max_difference := rfl

lemma mem_prismaSegment_brand {target db max_matches max_difference m}
    (h : m ∈ prismaSegment target db max_matches max_difference) :
    m.brand = "Prismacolor" :=
  of_decide_eq_true (List.mem_filter.mp (List.mem_of_mem_take h)).2

lemma mem_faberSegment_brand {target db max_matches max_difference m}
    (h : m ∈ faberSegment target db max_matches max_difference) :
    m.brand = "Faber Castell" :=
  of_decide_eq_true (List.mem_filter.mp (List.mem_of_mem_take h)).2

lemma mem_find_matches_diff_le {target db max_matches max_difference m}
    (h : m ∈ find_matches target db max_matches max_difference) :
    m.color_difference ≤ max_difference := by
  rw [find_matches_eq_segments] at h
  rcases List.mem_append.mp h with h' | h' <;>
  · have h2 := List.mem_filter.mp (List.mem_of_mem_take h')
    have h3 := (List.perm_insertionSort diffLE _).mem_iff.mp h2.1
    exact of_decide_eq_true (List.mem_filter.mp h3).2

lemma prismaSegment_sorted (target : Rgb) (db : PencilDatabase)
    (max_matches : ℕ) (max_difference : ℝ) :
    List.Sorted diffLE (prismaSegment target db max_matches max_difference) :=
  (((List.sorted_insertionSort diffLE _).filter _).sublist
    (List.take_sublist _ _))

lemma faberSegment_sorted (target : Rgb) (db : PencilDatabase)
    (max_matches : ℕ) (max_difference : ℝ) :
    List.Sorted diffLE (faberSegment target db max_matches max_difference) :=
  (((List.sorted_insertionSort diffLE _).filter _).sublist
    (List.take_sublist _ _))

/-- C2 counterexample helper: brands other than the two special-cased ones
never survive the final filters. -/
lemma mem_find_matches_brand {target db max_matches max_difference m}
    (h : m ∈ find_matches target db max_matches max_difference) :
    m.brand = "Prismacolor" ∨ m.brand = "Faber Castell" := by
  rw [find_matches_eq_segments] at h
  rcases List.mem_append.mp h with h' | h'
  · exact Or.inl (mem_prismaSegment_brand h')
  · exact Or.inr (mem_faberSegment_brand h')

lemma filter_brand_find_matches (target : Rgb) (db : PencilDatabase)
    (max_matches : ℕ) (max_difference : ℝ) (b : String) :
    ((find_matches target db max_matches max_difference).filter
        (fun m => decide (m.brand = b))).length ≤ max_matches := by
  rw [find_matches_eq_segments, List.filter_append, List.length_append]
  by_cases hp : b = "Prismacolor"
  · subst hp
    have h2 : (faberSegment target db max_matches max_difference).filter
        (fun m => decide (m.brand = "Prismacolor")) = [] := by
      refine List.filter_eq_nil_iff.mpr (fun m hm => ?_)
      rw [mem_faberSegment_brand hm]
      simp
    rw [h2]
    simp only [List.length_nil, Nat.add_zero]
    calc ((prismaSegment target db max_matches max_difference).filter _).length
        ≤ (prismaSegment target db max_matches max_difference).length :=
          List.length_filter_le _ _
      _ ≤ max_matches := by
          simpa [prismaSegment, List.length_take] using Nat.min_le_left _ _
  · have h1 : (prismaSegment target db max_matches max_difference).filter
        (fun m => decide (m.brand = b)) = [] := by
      refine List.filter_eq_nil_iff.mpr (fun m hm => ?_)
      rw [mem_prismaSegment_brand hm]
      simp [Ne.symm hp]
    rw [h1]
    simp only [List.length_nil, Nat.zero_add]
    by_cases hf : b = "Faber Castell"
    · subst hf
      calc ((faberSegment target db max_matches max_difference).filter _).length
          ≤ (faberSegment target db max_matches max_difference).length :=
            List.length_filter_le _ _
        _ ≤ max_matches := by
            simpa [faberSegment, List.length_take] using Nat.min_le_left _ _
    · have h2 : (faberSegment target db max_matches max_difference).filter
          (fun m => decide (m.brand = b)) = [] := by
        refine List.filter_eq_nil_iff.mpr (fun m hm => ?_)
        rw [mem_faberSegment_brand hm]
        simp [Ne.symm hf]
      rw [h2]
      simp

/-! ### A coarse upper bound on ΔE for valid u8 colours -/

lemma gammaCorrect_le_one {v : ℝ} (h0 : 0 ≤ v) (h1 : v ≤ 1) : gammaCorrect v ≤ 1 := by
  unfold gammaCorrect
  split
  · refine Real.rpow_le_one (div_nonneg (by linarith) (by norm_num)) ?_ (by norm_num)
    rw [div_le_one (by norm_num)]
    linarith
  · rw [div_le_one (by norm_num)]
    linarith

lemma labF_nonneg {t : ℝ} (ht : 0 ≤ t) : 0 ≤ labF t := by
  unfold labF
  split
  · exact Real.rpow_nonneg ht _
  · linarith

lemma labF_le {t : ℝ} (h0 : 0 ≤ t) (h2 : t ≤ 1.2) : labF t ≤ 1.1 := by
  unfold labF
  split
  · have hc : (t ^ ((1:ℝ)/3)) ^ (3:ℕ) = t := by
      rw [← Real.rpow_natCast (t ^ ((1:ℝ)/3)) 3, ← Real.rpow_mul h0]
      norm_num
    have : (t ^ ((1:ℝ)/3)) ^ (3:ℕ) < (1.1:ℝ) ^ (3:ℕ) := by
      rw [hc]
      nlinarith
    exact (lt_of_pow_lt_pow_left₀ 3 (by norm_num) this).le
  · have ht : t ≤ 0.008856 := by linarith [not_lt.mp (by assumption)]
    nlinarith

/-- Every LAB component of a valid u8 colour lies in a fixed box. -/
lemma rgb_to_lab_bounds {c : Rgb} (hc : c.valid) :
    ((-16 : ℝ) ≤ (rgb_to_lab c).l ∧ (rgb_to_lab c).l ≤ 116 * 1.1 - 16)
    ∧ (abs (rgb_to_lab c).a ≤ 500 * 1.1 ∧ abs (rgb_to_lab c).b ≤ 200 * 1.1) := by
  obtain ⟨hr, hg, hb⟩ := hc
  have hr' : ((c.r : ℝ) / 255) ≤ 1 := by
    rw [div_le_one (by norm_num)]
    exact_mod_cast Nat.lt_succ_iff.mp hr |>.trans (by norm_num)
  have hg' : ((c.g : ℝ) / 255) ≤ 1 := by
    rw [div_le_one (by norm_num)]
    exact_mod_cast Nat.lt_succ_iff.mp hg |>.trans (by norm_num)
  have hb' : ((c.b : ℝ) / 255) ≤ 1 := by
    rw [div_le_one (by norm_num)]
    exact_mod_cast Nat.lt_succ_iff.mp hb |>.trans (by norm_num)
  have g1 := gammaCorrect_nonneg (show (0:ℝ) ≤ (c.r : ℝ) / 255 by positivity)
  have g2 := gammaCorrect_nonneg (show (0:ℝ) ≤ (c.g : ℝ) / 255 by positivity)
  have g3 := gammaCorrect_nonneg (show (0:ℝ) ≤ (c.b : ℝ) / 255 by positivity)
  have u1 := gammaCorrect_le_one (show (0:ℝ) ≤ (c.r : ℝ) / 255 by positivity) hr'
  have u2 := gammaCorrect_le_one (show (0:ℝ) ≤ (c.g : ℝ) / 255 by positivity) hg'
  have u3 := gammaCorrect_le_one (show (0:ℝ) ≤ (c.b : ℝ) / 255 by positivity) hb'
  simp only [rgb_to_lab]
  have hx0 : (0:ℝ) ≤ (0.4124564 * gammaCorrect ((c.r : ℝ) / 255)
      + 0.3575761 * gammaCorrect ((c.g : ℝ) / 255)
      + 0.1804375 * gammaCorrect ((c.b : ℝ) / 255)) / 0.95047 :=
    div_nonneg (by linarith) (by norm_num)
  have hx2 : (0.4124564 * gammaCorrect ((c.r : ℝ) / 255)
      + 0.3575761 * gammaCorrect ((c.g : ℝ) / 255)
      + 0.1804375 * gammaCorrect ((c.b : ℝ) / 255)) / 0.95047 ≤ 1.2 := by
    rw [div_le_iff₀ (by norm_num)]
    nlinarith
  have hy0 : (0:ℝ) ≤ (0.2126729 * gammaCorrect ((c.r : ℝ) / 255)
      + 0.7151522 * gammaCorrect ((c.g : ℝ) / 255)
      + 0.0721750 * gammaCorrect ((c.b : ℝ) / 255)) / 1.00000 :=
    div_nonneg (by linarith) (by norm_num)
  have hy2 : (0.2126729 * gammaCorrect ((c.r : ℝ) / 255)
      + 0.7151522 * gammaCorrect ((c.g : ℝ) / 255)
      + 0.0721750 * gammaCorrect ((c.b : ℝ) / 255)) / 1.00000 ≤ 1.2 := by
    rw [div_le_iff₀ (by norm_num)]
    nlinarith
  have hz0 : (0:ℝ) ≤ (0.0193339 * gammaCorrect ((c.r : ℝ) / 255)
      + 0.1191920 * gammaCorrect ((c.g : ℝ) / 255)
      + 0.9503041 * gammaCorrect ((c.b : ℝ) / 255)) / 1.08883 :=
    div_nonneg (by linarith) (by norm_num)
  have hz2 : (0.0193339 * gammaCorrect ((c.r : ℝ) / 255)
      + 0.1191920 * gammaCorrect ((c.g : ℝ) / 255)
      + 0.9503041 * gammaCorrect ((c.b : ℝ) / 255)) / 1.08883 ≤ 1.2 := by
    rw [div_le_iff₀ (by norm_num)]
    nlinarith
  have fx0 := labF_nonneg hx0
  have fx1 := labF_le hx0 hx2
  have fy0 := labF_nonneg hy0
  have fy1 := labF_le hy0 hy2
  have fz0 := labF_nonneg hz0
  have fz1 := labF_le hz0 hz2
  refine ⟨⟨by linarith, by linarith⟩, ?_, ?_⟩ <;>
  · rw [abs_le]
    constructor <;> linarith

/-- A crude but fully general ΔE bound for valid u8 colours. -/
lemma calculate_color_difference_le_2000 {c1 c2 : Rgb}
    (h1 : c1.valid) (h2 : c2.valid) :
    calculate_color_difference c1 c2 ≤ 2000 := by
  obtain ⟨⟨l1lo, l1hi⟩, a1b, b1b⟩ := rgb_to_lab_bounds h1
  obtain ⟨⟨l2lo, l2hi⟩, a2b, b2b⟩ := rgb_to_lab_bounds h2
  rw [abs_le] at a1b b1b a2b b2b
  unfold calculate_color_difference
  have hs : ((rgb_to_lab c1).l - (rgb_to_lab c2).l) ^ 2
      + ((rgb_to_lab c1).a - (rgb_to_lab c2).a) ^ 2
      + ((rgb_to_lab c1).b - (rgb_to_lab c2).b) ^ 2 ≤ 2000 ^ 2 := by
    nlinarith [a1b.1, a1b.2, a2b.1, a2b.2, b1b.1, b1b.2, b2b.1, b2b.2]
  have h0 : (0:ℝ) ≤ ((rgb_to_lab c1).l - (rgb_to_lab c2).l) ^ 2
      + ((rgb_to_lab c1).a - (rgb_to_lab c2).a) ^ 2
      + ((rgb_to_lab c1).b - (rgb_to_lab c2).b) ^ 2 := by positivity
  nlinarith [Real.sq_sqrt h0, Real.sqrt_nonneg (((rgb_to_lab c1).l - (rgb_to_lab c2).l) ^ 2
      + ((rgb_to_lab c1).a - (rgb_to_lab c2).a) ^ 2
      + ((rgb_to_lab c1).b - (rgb_to_lab c2).b) ^ 2)]

lemma exDb_all : exDb.get_all_pencils = [exPPencil, exFPencil] := rfl

lemma exP_diff_pos : 0 < calculate_color_difference exTarget exPPencil.rgb :=
  calculate_color_difference_pos (by decide) (by decide) (by decide)

lemma exP_diff_le : calculate_color_difference exTarget exPPencil.rgb ≤ 2000 :=
  calculate_color_difference_le_2000 (by decide) (by decide)

lemma exF_diff : calculate_color_difference exTarget exFPencil.rgb = 0 :=
  calculate_color_difference_self exTarget

lemma find_matches_ex :
    find_matches exTarget exDb 5 2000
      = [mkMatch exTarget exPPencil, mkMatch exTarget exFPencil] := by
  have hP : decide ((mkMatch exTarget exPPencil).color_difference ≤ (2000:ℝ)) = true :=
    decide_eq_true exP_diff_le
  have hF : decide ((mkMatch exTarget exFPencil).color_difference ≤ (2000:ℝ)) = true := by
    refine decide_eq_true ?_
    show calculate_color_difference exTarget exFPencil.rgb ≤ 2000
    rw [exF_diff]
    norm_num
  have hnot : ¬ diffLE (mkMatch exTarget exPPencil) (mkMatch exTarget exFPencil) := by
    show ¬ (calculate_color_difference exTarget exPPencil.rgb
      ≤ calculate_color_difference exTarget exFPencil.rgb)
    rw [exF_diff]
    exact not_le.mpr exP_diff_pos
  have bFP : decide ((mkMatch exTarget exFPencil).brand = "Prismacolor") = false := by decide
  have bPP : decide ((mkMatch exTarget exPPencil).brand = "Prismacolor") = true := by decide
  have bFF : decide ((mkMatch exTarget exFPencil).brand = "Faber Castell") = true := by decide
  have bPF : decide ((mkMatch exTarget exPPencil).brand = "Faber Castell") = false := by decide
  have hstep1 : ((exDb.get_all_pencils.map (mkMatch exTarget)).filter
        (fun m => decide (m.color_difference ≤ (2000:ℝ))))
      = [mkMatch exTarget exPPencil, mkMatch exTarget exFPencil] := by
    rw [exDb_all]
    simp [List.filter_cons, hP, hF]
  have hstep2 : List.insertionSort diffLE
        [mkMatch exTarget exPPencil, mkMatch exTarget exFPencil]
      = [mkMatch exTarget exFPencil, mkMatch exTarget exPPencil] := by
    simp only [List.insertionSort, List.orderedInsert]
    rw [if_neg hnot]
  have hbrandP : ((List.filter (fun m => decide (m.brand = "Prismacolor")))
        [mkMatch exTarget exFPencil, mkMatch exTarget exPPencil])
      = [mkMatch exTarget exPPencil] := by
    simp [List.filter_cons, bFP, bPP]
  have hbrandF : ((List.filter (fun m => decide (m.brand = "Faber Castell")))
        [mkMatch exTarget exFPencil, mkMatch exTarget exPPencil])
      = [mkMatch exTarget exFPencil] := by
    simp [List.filter_cons, bFF, bPF]
  show ((((exDb.get_all_pencils.map (mkMatch exTarget)).filter
      (fun m => decide (m.color_difference ≤ (2000:ℝ)))).insertionSort
        diffLE).filter (fun m => decide (m.brand = "Prismacolor"))).take 5
    ++ ((((exDb.get_all_pencils.map (mkMatch exTarget)).filter
      (fun m => decide (m.color_difference ≤ (2000:ℝ)))).insertionSort
        diffLE).filter (fun m => decide (m.brand = "Faber Castell"))).take 5
    = [mkMatch exTarget exPPencil, mkMatch exTarget exFPencil]
  rw [hstep1, hstep2, hbrandP, hbrandF]
  rfl

/-! ### Claims C1 – C4 -/

/-- C1, as stated, is false: the result of `find_matches` is the
concatenation of a Prismacolor block and a Faber Castell block, and on
`exDb` (Prismacolor dark gray, Faber Castell black, target black) the first
entry has a strictly larger `color_difference` than the second. -/
theorem c1_counterexample :
    ¬ List.Chain' (fun a b : ColorMatch => a.color_difference ≤ b.color_difference)
      (find_matches exTarget exDb 5 2000) := by
  rw [find_matches_ex]
  intro h
  have h1 := (List.chain'_cons.mp h).1
  have h2 : calculate_color_difference exTarget exPPencil.rgb
      ≤ calculate_color_difference exTarget exFPencil.rgb := h1
  rw [exF_diff] at h2
  exact absurd h2 (not_le.mpr exP_diff_pos)

/-- C1 (amended): the list returned by `find_matches` is its Prismacolor
entries followed by its Faber Castell entries, and each of those two blocks
is sorted ascending by `color_difference`; the concatenation as a whole
need not be sorted. -/
theorem c1_find_matches_segments_sorted (target : Rgb) (db : PencilDatabase)
    (max_matches : ℕ) (max_difference : ℝ) :
    find_matches target db max_matches max_difference
      = (find_matches target db max_matches max_difference).filter
          (fun m => decide (m.brand = "Prismacolor"))
        ++ (find_matches target db max_matches max_difference).filter
          (fun m => decide (m.brand = "Faber Castell"))
    ∧ List.Chain' (fun a b : ColorMatch => a.color_difference ≤ b.color_difference)
        ((find_matches target db max_matches max_difference).filter
          (fun m => decide (m.brand = "Prismacolor")))
    ∧ List.Chain' (fun a b : ColorMatch => a.color_difference ≤ b.color_difference)
        ((find_matches target db max_matches max_difference).filter
          (fun m => decide (m.brand = "Faber Castell"))) := by
  have hA : (prismaSegment target db max_matches max_difference).filter
      (fun m => decide (m.brand = "Prismacolor"))
      = prismaSegment target db max_matches max_difference :=
    List.filter_eq_self.mpr (fun m hm => decide_eq_true (mem_prismaSegment_brand hm))
  have hB : (faberSegment target db max_matches max_difference).filter
      (fun m => decide (m.brand = "Faber Castell"))
      = faberSegment target db max_matches max_difference :=
    List.filter_eq_self.mpr (fun m hm => decide_eq_true (mem_faberSegment_brand hm))
  have hAnil : (prismaSegment target db max_matches max_difference).filter
      (fun m => decide (m.brand = "Faber Castell")) = [] := by
    refine List.filter_eq_nil_iff.mpr (fun m hm => ?_)
    rw [mem_prismaSegment_brand hm]
    simp
  have hBnil : (faberSegment target db max_matches max_difference).filter
      (fun m => decide (m.brand = "Prismacolor")) = [] := by
    refine List.filter_eq_nil_iff.mpr (fun m hm => ?_)
    rw [mem_faberSegment_brand hm]
    simp
  refine ⟨?_, ?_, ?_⟩
  · rw [find_matches_eq_segments, List.filter_append, List.filter_append,
      hA, hB, hAnil, hBnil, List.append_nil, List.nil_append]
  · rw [find_matches_eq_segments, List.filter_append, hA, hBnil, List.append_nil]
    exact (prismaSegment_sorted target db max_matches max_difference).chain'
  · rw [find_matches_eq_segments, List.filter_append, hAnil, hB, List.nil_append]
    exact (faberSegment_sorted target db max_matches max_difference).chain'

/-- C2: every match returned by `find_matches` carries brand "Prismacolor"
or "Faber Castell"; pencils of the other four catalog brands never appear. -/
theorem c2_find_matches_only_special_brands (target : Rgb) (db : PencilDatabase)
    (max_matches : ℕ) (max_difference : ℝ) (m : ColorMatch)
    (hm : m ∈ find_matches target db max_matches max_difference) :
    m.brand = "Prismacolor" ∨ m.brand = "Faber Castell" :=
  mem_find_matches_brand hm

theorem c2_witness :
    (mkMatch exTarget exPPencil).brand = "Prismacolor"
      ∨ (mkMatch exTarget exPPencil).brand = "Faber Castell" :=
  c2_find_matches_only_special_brands exTarget exDb 5 2000 _
    (by rw [find_matches_ex]; exact List.mem_cons_self _ _)

/-- C3: `find_matches` never returns an entry whose difference exceeds
`max_difference`, and never more than `max_matches` entries of any brand. -/
theorem c3_find_matches_caps (target : Rgb) (db : PencilDatabase)
    (max_matches : ℕ) (max_difference : ℝ) (hmd : 0 ≤ max_difference) :
    (∀ m ∈ find_matches target db max_matches max_difference,
      m.color_difference ≤ max_difference)
    ∧ ∀ b : String,
        ((find_matches target db max_matches max_difference).filter
          (fun m => decide (m.brand = b))).length ≤ max_matches :=
  ⟨fun _ hm => mem_find_matches_diff_le hm,
    fun b => filter_brand_find_matches target db max_matches max_difference b⟩

theorem c3_witness :
    (0:ℝ) ≤ 2000
    ∧ (mkMatch exTarget exFPencil).color_difference ≤ 2000
    ∧ ((find_matches exTarget exDb 5 2000).filter
        (fun m => decide (m.brand = "Prismacolor"))).length ≤ 5 := by
  refine ⟨by norm_num, ?_, ?_⟩
  · exact (c3_find_matches_caps exTarget exDb 5 2000 (by norm_num)).1 _
      (by rw [find_matches_ex]; exact List.mem_cons_of_mem _ (List.mem_cons_self _ _))
  · exact (c3_find_matches_caps exTarget exDb 5 2000 (by norm_num)).2 ("Prismacolor")

/-- C4: `calculate_color_difference` is symmetric on all RGB triples, and on
valid u8 triples it vanishes exactly on equal triples. -/
theorem c4_color_difference_symm_and_zero_iff :
    (∀ a b : Rgb, calculate_color_difference a b = calculate_color_difference b a)
    ∧ ∀ a b : Rgb, a.valid → b.valid →
        (calculate_color_difference a b = 0 ↔ a = b) :=
  ⟨calculate_color_difference_symm,
    fun _ _ h1 h2 => calculate_color_difference_eq_zero_iff h1 h2⟩

theorem c4_witness :
    (calculate_color_difference ⟨10, 20, 30⟩ ⟨200, 100, 50⟩
      = calculate_color_difference ⟨200, 100, 50⟩ ⟨10, 20, 30⟩)
    ∧ (⟨10, 20, 30⟩ : Rgb).valid
    ∧ (⟨200, 100, 50⟩ : Rgb).valid
    ∧ (calculate_color_difference ⟨10, 20, 30⟩ ⟨200, 100, 50⟩ = 0
        ↔ (⟨10, 20, 30⟩ : Rgb) = ⟨200, 100, 50⟩) :=
  ⟨c4_color_difference_symm_and_zero_iff.1 _ _, by decide, by decide,
    c4_color_difference_symm_and_zero_iff.2 _ _ (by decide) (by decide)⟩

/-! ### Claim C9 — `find_best_match` -/

lemma bestStep_isSome (target : Rgb) (acc : Option ColorMatch) (p : Pencil) :
    (bestStep target acc p).isSome := by
  cases acc with
  | none => rfl
  | some m =>
    rw [bestStep]
    split <;> rfl

lemma foldl_bestStep_isSome (target : Rgb) :
    ∀ (l : List Pencil) (acc : Option ColorMatch),
      acc.isSome → ((l.foldl (bestStep target) acc).isSome) := by
  intro l
  induction l with
  | nil => intro acc h; exact h
  | cons p t ih =>
    intro acc _
    rw [List.foldl_cons]
    exact ih _ (bestStep_isSome target acc p)

/-- Full specification of the `find_best_match` scanning fold. -/
lemma foldl_bestStep_spec (target : Rgb) :
    ∀ (l : List Pencil) (acc : Option ColorMatch) (m : ColorMatch),
      l.foldl (bestStep target) acc = some m →
      (acc = some m ∨ ∃ p ∈ l, m = mkMatch target p)
      ∧ (∀ p ∈ l, m.color_difference ≤ calculate_color_difference target p.rgb)
      ∧ (∀ m', acc = some m' → m.color_difference ≤ m'.color_difference) := by
  intro l
  induction l with
  | nil =>
    intro acc m h
    rw [List.foldl_nil] at h
    exact ⟨Or.inl h, by simp, fun m' h' => by rw [h] at h'; cases h'; exact le_refl _⟩
  | cons p t ih =>
    intro acc m h
    rw [List.foldl_cons] at h
    obtain ⟨hmem, hmin, hacc⟩ := ih (bestStep target acc p) m h
    have hstep_le : ∀ m', bestStep target acc p = some m' →
        m'.color_difference ≤ calculate_color_difference target p.rgb := by
      intro m' h'
      cases acc with
      | none =>
        simp only [bestStep] at h'
        cases h'
        exact le_refl _
      | some m0 =>
        simp only [bestStep] at h'
        split at h'
        next hcond =>
          cases h'
          exact le_refl _
        next hcond =>
          cases h'
          exact not_lt.mp hcond
    have hstep_mem : ∀ m', bestStep target acc p = some m' →
        acc = some m' ∨ m' = mkMatch target p := by
      intro m' h'
      cases acc with
      | none =>
        simp only [bestStep] at h'
        cases h'
        exact Or.inr rfl
      | some m0 =>
        simp only [bestStep] at h'
        split at h'
        · cases h'
          exact Or.inr rfl
        · cases h'
          exact Or.inl rfl
    have hstep_min : ∀ m' m0, bestStep target acc p = some m' → acc = some m0 →
        m'.color_difference ≤ m0.color_difference := by
      intro m' m0 h' h0
      subst h0
      simp only [bestStep] at h'
      split at h'
      next hcond =>
        cases h'
        exact hcond.le
      next =>
        cases h'
        exact le_refl _
    obtain ⟨m1, hm1⟩ := Option.isSome_iff_exists.mp (bestStep_isSome target acc p)
    refine ⟨?_, ?_, ?_⟩
    · rcases hmem with hacc' | ⟨q, hq, hmq⟩
      · rcases hstep_mem m hacc' with h1 | h1
        · exact Or.inl h1
        · exact Or.inr ⟨p, List.mem_cons_self p t, h1⟩
      · exact Or.inr ⟨q, List.mem_cons_of_mem p hq, hmq⟩
    · intro q hq
      rcases List.mem_cons.mp hq with rfl | hqt
      · calc m.color_difference ≤ m1.color_difference := hacc m1 hm1
          _ ≤ calculate_color_difference target q.rgb := hstep_le m1 hm1
      · exact hmin q hqt
    · intro m0 h0
      calc m.color_difference ≤ m1.color_difference := hacc m1 hm1
        _ ≤ m0.color_difference := hstep_min m1 m0 hm1 h0

/-- C9 (amended): `find_best_match` returns `none` exactly when the pencil
list it scans is empty — the brand table for a recognised filter, the whole
catalog otherwise — and any returned match is built from a scanned pencil
and minimises `color_difference` over the scanned list. -/
theorem c9_find_best_match_min (target : Rgb) (db : PencilDatabase)
    (brand : Option String) :
    (find_best_match target db brand = none ↔ scannedPencils db brand = [])
    ∧ ∀ m, find_best_match target db brand = some m →
        (∃ p ∈ scannedPencils db brand, m = mkMatch target p)
        ∧ ∀ p ∈ scannedPencils db brand,
            m.color_difference ≤ calculate_color_difference target p.rgb := by
  constructor
  · constructor
    · intro h
      by_contra hne
      obtain ⟨p, t, hpt⟩ := List.exists_cons_of_ne_nil hne
      have hsome : (find_best_match target db brand).isSome := by
        unfold find_best_match
        rw [hpt, List.foldl_cons]
        exact foldl_bestStep_isSome target t _ (bestStep_isSome target none p)
      rw [h] at hsome
      exact Bool.noConfusion hsome
    · intro h
      unfold find_best_match
      rw [h]
      rfl
  · intro m hm
    unfold find_best_match at hm
    obtain ⟨hmem, hmin, _⟩ := foldl_bestStep_spec target (scannedPencils db brand) none m hm
    rcases hmem with h' | h'
    · exact absurd h' (by simp)
    · exact ⟨h', hmin⟩

/-- C9, as stated, is false: on a nonempty catalog holding only a Derwent
pencil, `find_best_match` with the "Prismacolor" filter scans the empty
Prismacolor table and returns `none` even though the catalog is nonempty. -/
theorem c9_counterexample :
    find_best_match ⟨0, 0, 0⟩ derwentOnlyDb (some ("Prismacolor")) = none
    ∧ derwentOnlyDb.get_all_pencils ≠ [] := by
  exact ⟨rfl, by decide⟩

theorem c9_witness :
    (find_best_match exTarget exDb none = none ↔ scannedPencils exDb none = [])
    ∧ (mkMatch exTarget exFPencil).color_difference
        ≤ calculate_color_difference exTarget exPPencil.rgb := by
  have heval : find_best_match exTarget exDb none
      = some (mkMatch exTarget exFPencil) := by
    show (scannedPencils exDb none).foldl (bestStep exTarget) none = _
    have h1 : scannedPencils exDb none = [exPPencil, exFPencil] := rfl
    rw [h1, List.foldl_cons, List.foldl_cons, List.foldl_nil]
    show bestStep exTarget (bestStep exTarget none exPPencil) exFPencil = _
    have h2 : bestStep exTarget none exPPencil = some (mkMatch exTarget exPPencil) := rfl
    rw [h2, bestStep]
    rw [if_pos ?cond]
    case cond =>
      show calculate_color_difference exTarget exFPencil.rgb
        < (mkMatch exTarget exPPencil).color_difference
      rw [exF_diff]
      exact exP_diff_pos
  refine ⟨(c9_find_best_match_min exTarget exDb none).1, ?_⟩
  exact ((c9_find_best_match_min exTarget exDb none).2
    (mkMatch exTarget exFPencil) heval).2 exPPencil (by decide)

/-! ### Claim C7 — the distribution decision table -/

lemma spread_gt_iff (a h : ℕ) (hh : 0 < h) :
    ((0.7 : ℝ) < (a : ℝ) / (h : ℝ)) ↔ 7 * h < 10 * a := by
  have hh' : (0 : ℝ) < (h : ℝ) := by exact_mod_cast hh
  rw [lt_div_iff₀ hh']
  constructor
  · intro hlt
    have h2 : (7 * h : ℝ) < 10 * a := by nlinarith
    exact_mod_cast h2
  · intro hlt
    have h2 : (7 * h : ℝ) < 10 * a := by exact_mod_cast hlt
    nlinarith

lemma spread_lt_iff (a h : ℕ) (hh : 0 < h) :
    ((a : ℝ) / (h : ℝ) < 0.3) ↔ 10 * a < 3 * h := by
  have hh' : (0 : ℝ) < (h : ℝ) := by exact_mod_cast hh
  rw [div_lt_iff₀ hh']
  constructor
  · intro hlt
    have h2 : (10 * a : ℝ) < 3 * h := by nlinarith
    exact_mod_cast h2
  · intro hlt
    have h2 : (10 * a : ℝ) < 3 * h := by exact_mod_cast hlt
    nlinarith

lemma varQ_nonneg (l : List ℕ) : 0 ≤ varQ l := by
  unfold varQ
  apply div_nonneg
  · apply List.sum_nonneg
    intro q hq
    simp only [List.mem_map] at hq
    obtain ⟨n, _, rfl⟩ := hq
    positivity
  · positivity

lemma std_lt_iff (q : ℚ) (h : ℕ) (hq : 0 ≤ q) (hh : 0 < h) :
    (Real.sqrt ((q : ℚ) : ℝ) / (h : ℝ) < 0.15) ↔ 400 * q < 9 * (h : ℚ) ^ 2 := by
  have hh' : (0 : ℝ) < (h : ℝ) := by exact_mod_cast hh
  rw [div_lt_iff₀ hh', Real.sqrt_lt' (by positivity : (0:ℝ) < 0.15 * (h:ℝ))]
  constructor
  · intro hlt
    have h3 : ((400 * q : ℚ) : ℝ) < ((9 * (h : ℚ) ^ 2 : ℚ) : ℝ) := by
      push_cast
      push_cast at hlt
      nlinarith
    exact_mod_cast h3
  · intro hlt
    have h3 : ((400 * q : ℚ) : ℝ) < ((9 * (h : ℚ) ^ 2 : ℚ) : ℝ) := by exact_mod_cast hlt
    push_cast at h3 ⊢
    nlinarith

/-- C7: on a nonempty coordinate list in a positive-sized image, the source
classifier agrees with the spec's four-way decision table (spreads above
0.7 first, then standard deviations below 0.15, then a spread below 0.3,
else scattered — first match wins). -/
theorem c7_classify_follows_spec_table (coords : List (ℕ × ℕ)) (height width : ℕ)
    (hne : coords ≠ []) (hh : 0 < height) (hw : 0 < width) :
    _classify_distribution (coords.map Prod.fst) (coords.map Prod.snd) height width
      = classifySpecTable (coords.map Prod.fst) (coords.map Prod.snd) height width := by
  have hlen : ¬ ((coords.map Prod.fst).length = 0) := by
    intro h
    exact hne (by rwa [List.length_map, List.length_eq_zero] at h)
  have e1 := and_congr
    (spread_gt_iff (natMax (coords.map Prod.fst) - natMin (coords.map Prod.fst)) height hh)
    (spread_gt_iff (natMax (coords.map Prod.snd) - natMin (coords.map Prod.snd)) width hw)
  have e2 := and_congr
    (std_lt_iff (varQ (coords.map Prod.fst)) height (varQ_nonneg _) hh)
    (std_lt_iff (varQ (coords.map Prod.snd)) width (varQ_nonneg _) hw)
  have e3 := or_congr
    (spread_lt_iff (natMax (coords.map Prod.fst) - natMin (coords.map Prod.fst)) height hh)
    (spread_lt_iff (natMax (coords.map Prod.snd) - natMin (coords.map Prod.snd)) width hw)
  unfold _classify_distribution classifySpecTable
  rw [if_neg hlen]
  exact if_congr e1 rfl (if_congr e2 rfl (if_congr e3 rfl rfl))

theorem c7_witness :
    ([((0:ℕ), (0:ℕ))] ≠ ([] : List (ℕ × ℕ))) ∧ (0 < 1) ∧
    _classify_distribution ([((0:ℕ), (0:ℕ))].map Prod.fst)
        ([((0:ℕ), (0:ℕ))].map Prod.snd) 1 1
      = classifySpecTable ([((0:ℕ), (0:ℕ))].map Prod.fst)
        ([((0:ℕ), (0:ℕ))].map Prod.snd) 1 1 :=
  ⟨by decide, by decide,
    c7_classify_follows_spec_table [(0, 0)] 1 1 (by decide) (by decide) (by decide)⟩

/-! ### Claim C10 — regional coverage is a partition -/

lemma countP_three_partition (l : List ℕ) (p q r : ℕ → Bool)
    (h : ∀ a, (p a = true ∧ q a = false ∧ r a = false)
      ∨ (p a = false ∧ q a = true ∧ r a = false)
      ∨ (p a = false ∧ q a = false ∧ r a = true)) :
    l.countP p + l.countP q + l.countP r = l.length := by
  induction l with
  | nil => simp
  | cons a t ih =>
    rcases h a with ⟨h1, h2, h3⟩ | ⟨h1, h2, h3⟩ | ⟨h1, h2, h3⟩ <;>
      simp [List.countP_cons, h1, h2, h3] <;> omega

lemma thirds_partition (hdim : ℕ) (a : ℕ) :
    ((decide ((a : ℚ) < (hdim : ℚ) / 3) = true
        ∧ decide ((hdim : ℚ) / 3 ≤ (a : ℚ) ∧ (a : ℚ) < 2 * (hdim : ℚ) / 3) = false
        ∧ decide (2 * (hdim : ℚ) / 3 ≤ (a : ℚ)) = false)
      ∨ (decide ((a : ℚ) < (hdim : ℚ) / 3) = false
        ∧ decide ((hdim : ℚ) / 3 ≤ (a : ℚ) ∧ (a : ℚ) < 2 * (hdim : ℚ) / 3) = true
        ∧ decide (2 * (hdim : ℚ) / 3 ≤ (a : ℚ)) = false)
      ∨ (decide ((a : ℚ) < (hdim : ℚ) / 3) = false
        ∧ decide ((hdim : ℚ) / 3 ≤ (a : ℚ) ∧ (a : ℚ) < 2 * (hdim : ℚ) / 3) = false
        ∧ decide (2 * (hdim : ℚ) / 3 ≤ (a : ℚ)) = true)) := by
  have hd : (0 : ℚ) ≤ (hdim : ℚ) := by positivity
  rcases lt_or_le (a : ℚ) ((hdim : ℚ) / 3) with h1 | h1
  · refine Or.inl ⟨decide_eq_true h1, decide_eq_false ?_, decide_eq_false ?_⟩
    · rintro ⟨h2, _⟩
      linarith
    · intro h2
      linarith
  · rcases lt_or_le (a : ℚ) (2 * (hdim : ℚ) / 3) with h2 | h2
    · refine Or.inr (Or.inl ⟨decide_eq_false (by linarith), decide_eq_true ⟨h1, h2⟩,
        decide_eq_false (by intro h3; linarith)⟩)
    · refine Or.inr (Or.inr ⟨decide_eq_false (by intro h3; linarith),
        decide_eq_false ?_, decide_eq_true h2⟩)
      rintro ⟨_, h3⟩
      linarith

lemma pct_bounds (c n : ℕ) (hn : 0 < n) (hc : c ≤ n) :
    0 ≤ (c : ℚ) / (n : ℚ) * 100 ∧ (c : ℚ) / (n : ℚ) * 100 ≤ 100 := by
  have hn' : (0 : ℚ) < (n : ℚ) := by exact_mod_cast hn
  constructor
  · positivity
  · rw [div_mul_eq_mul_div, div_le_iff₀ hn']
    have hc' : (c : ℚ) ≤ (n : ℚ) := by exact_mod_cast hc
    nlinarith

lemma pct_sum_100 (c1 c2 c3 n : ℕ) (hn : 0 < n) (hsum : c1 + c2 + c3 = n) :
    (c1 : ℚ) / (n : ℚ) * 100 + (c2 : ℚ) / (n : ℚ) * 100 + (c3 : ℚ) / (n : ℚ) * 100
      = 100 := by
  have hn' : (n : ℚ) ≠ 0 := by
    have : (0 : ℚ) < (n : ℚ) := by exact_mod_cast hn
    linarith
  have hsum' : (c1 : ℚ) + (c2 : ℚ) + (c3 : ℚ) = (n : ℚ) := by exact_mod_cast hsum
  field_simp
  linarith

lemma coverage_spec (ys xs : List ℕ) (height width : ℕ)
    (hlen : xs.length = ys.length) (hpos : 0 < ys.length) :
    ((_analyze_regional_coverage ys xs height width).top
        + (_analyze_regional_coverage ys xs height width).middle
        + (_analyze_regional_coverage ys xs height width).bottom = 100)
    ∧ ((_analyze_regional_coverage ys xs height width).left
        + (_analyze_regional_coverage ys xs height width).center
        + (_analyze_regional_coverage ys xs height width).right = 100)
    ∧ unitPct (_analyze_regional_coverage ys xs height width).top
    ∧ unitPct (_analyze_regional_coverage ys xs height width).middle
    ∧ unitPct (_analyze_regional_coverage ys xs height width).bottom
    ∧ unitPct (_analyze_regional_coverage ys xs height width).left
    ∧ unitPct (_analyze_regional_coverage ys xs height width).center
    ∧ unitPct (_analyze_regional_coverage ys xs height width).right := by
  have hne : ¬ (ys.length = 0) := Nat.pos_iff_ne_zero.mp hpos
  have hV := countP_three_partition ys _ _ _ (thirds_partition height)
  have hH := countP_three_partition xs _ _ _ (thirds_partition width)
  rw [hlen] at hH
  unfold _analyze_regional_coverage
  rw [if_neg hne]
  refine ⟨pct_sum_100 _ _ _ _ hpos hV, pct_sum_100 _ _ _ _ hpos hH,
    pct_bounds _ _ hpos (List.countP_le_length _),
    pct_bounds _ _ hpos (List.countP_le_length _),
    pct_bounds _ _ hpos (List.countP_le_length _),
    pct_bounds _ _ hpos ?_, pct_bounds _ _ hpos ?_, pct_bounds _ _ hpos ?_⟩ <;>
  · rw [← hlen]
    exact List.countP_le_length _

/-- C10: on a nonempty coordinate set the three vertical coverage
percentages sum to 100 and so do the three horizontal ones, every value lies
in [0, 100], and an empty coordinate set yields the all-zero coverage. -/
theorem c10_regional_coverage_sums (coords : List (ℕ × ℕ)) (height width : ℕ) :
    (coords = [] →
      _analyze_regional_coverage (coords.map Prod.fst) (coords.map Prod.snd)
        height width = zeroCoverage)
    ∧ (coords ≠ [] →
      ((_analyze_regional_coverage (coords.map Prod.fst) (coords.map Prod.snd)
          height width).top
        + (_analyze_regional_coverage (coords.map Prod.fst) (coords.map Prod.snd)
          height width).middle
        + (_analyze_regional_coverage (coords.map Prod.fst) (coords.map Prod.snd)
          height width).bottom = 100)
      ∧ ((_analyze_regional_coverage (coords.map Prod.fst) (coords.map Prod.snd)
          height width).left
        + (_analyze_regional_coverage (coords.map Prod.fst) (coords.map Prod.snd)
          height width).center
        + (_analyze_regional_coverage (coords.map Prod.fst) (coords.map Prod.snd)
          height width).right = 100)
      ∧ unitPct (_analyze_regional_coverage (coords.map Prod.fst)
          (coords.map Prod.snd) height width).top
      ∧ unitPct (_analyze_regional_coverage (coords.map Prod.fst)
          (coords.map Prod.snd) height width).middle
      ∧ unitPct (_analyze_regional_coverage (coords.map Prod.fst)
          (coords.map Prod.snd) height width).bottom
      ∧ unitPct (_analyze_regional_coverage (coords.map Prod.fst)
          (coords.map Prod.snd) height width).left
      ∧ unitPct (_analyze_regional_coverage (coords.map Prod.fst)
          (coords.map Prod.snd) height width).center
      ∧ unitPct (_analyze_regional_coverage (coords.map Prod.fst)
          (coords.map Prod.snd) height width).right) := by
  constructor
  · rintro rfl
    rfl
  · intro hne
    refine coverage_spec _ _ height width (by rw [List.length_map, List.length_map]) ?_
    rw [List.length_map]
    exact List.length_pos.mpr hne

theorem c10_witness :
    (_analyze_regional_coverage (([] : List (ℕ × ℕ)).map Prod.fst)
      (([] : List (ℕ × ℕ)).map Prod.snd) 1 1 = zeroCoverage)
    ∧ ((_analyze_regional_coverage ([((0:ℕ), (0:ℕ))].map Prod.fst)
        ([((0:ℕ), (0:ℕ))].map Prod.snd) 3 3).top
      + (_analyze_regional_coverage ([((0:ℕ), (0:ℕ))].map Prod.fst)
        ([((0:ℕ), (0:ℕ))].map Prod.snd) 3 3).middle
      + (_analyze_regional_coverage ([((0:ℕ), (0:ℕ))].map Prod.fst)
        ([((0:ℕ), (0:ℕ))].map Prod.snd) 3 3).bottom = 100)
    ∧ unitPct (_analyze_regional_coverage ([((0:ℕ), (0:ℕ))].map Prod.fst)
        ([((0:ℕ), (0:ℕ))].map Prod.snd) 3 3).top :=
  ⟨(c10_regional_coverage_sums [] 1 1).1 rfl,
    ((c10_regional_coverage_sums [(0, 0)] 3 3).2 (by decide)).1,
    ((c10_regional_coverage_sums [(0, 0)] 3 3).2 (by decide)).2.2.1⟩

/-! ### Claim C8 — a full-image cluster -/

lemma le_natMax {l : List ℕ} {a : ℕ} (h : a ∈ l) : a ≤ natMax l := by
  induction l with
  | nil => cases h
  | cons b t ih =>
    rcases List.mem_cons.mp h with rfl | h'
    · exact le_max_left _ _
    · exact le_trans (ih h') (le_max_right _ _)

lemma natMax_le {l : List ℕ} {b : ℕ} (h : ∀ a ∈ l, a ≤ b) : natMax l ≤ b := by
  induction l with
  | nil => exact Nat.zero_le b
  | cons a t ih =>
    exact max_le (h a (List.mem_cons_self a t))
      (ih (fun x hx => h x (List.mem_cons_of_mem a hx)))

lemma natMin_le {l : List ℕ} {a : ℕ} (h : a ∈ l) : natMin l ≤ a := by
  induction l with
  | nil => cases h
  | cons b t ih =>
    cases t with
    | nil =>
      rcases List.mem_cons.mp h with rfl | h'
      · exact le_refl a
      · cases h'
    | cons b' t' =>
      rcases List.mem_cons.mp h with rfl | h'
      · exact min_le_left _ _
      · exact le_trans (min_le_right _ _) (ih h')

lemma countP_lt_range (n K : ℕ) :
    (List.range n).countP (fun y => decide (y < K)) = min n K := by
  induction n with
  | zero => simp
  | succ n ih =>
    rw [List.range_succ, List.countP_append, ih]
    rcases Nat.lt_or_ge n K with h | h
    · simp [List.countP_cons, h]
      omega
    · simp [List.countP_cons, Nat.not_lt.mpr h]
      omega

lemma countP_ge_range (n K : ℕ) :
    (List.range n).countP (fun y => decide (K ≤ y)) = n - min n K := by
  induction n with
  | zero => simp
  | succ n ih =>
    rw [List.range_succ, List.countP_append, ih]
    rcases Nat.lt_or_ge n K with h | h
    · simp [List.countP_cons, Nat.not_le.mpr h]
      omega
    · simp [List.countP_cons, h]
      omega

lemma countP_range_mul (h w : ℕ) (p : ℕ → Bool) (hw : 0 < w) :
    (List.range (h * w)).countP (p ∘ fun i => i / w) = w * (List.range h).countP p := by
  induction h with
  | zero => simp
  | succ n ih =>
    have hsplit : (n + 1) * w = n * w + w := by ring
    rw [hsplit, List.range_add, List.countP_append, ih, List.countP_map]
    have hcongr : ((List.range w).countP ((p ∘ fun i => i / w) ∘ fun x => n * w + x))
        = (List.range w).countP (fun _ => p n) := by
      refine List.countP_congr (fun j hj => ?_)
      have hjw : j < w := List.mem_range.mp hj
      have hdiv : (n * w + j) / w = n := by
        rw [Nat.mul_comm n w, Nat.mul_add_div hw, Nat.div_eq_of_lt hjw]
        omega
      simp [Function.comp, hdiv]
    rw [hcongr, List.range_succ, List.countP_append]
    cases hp : p n <;> simp [List.countP_cons, hp, List.countP_false, List.countP_true] <;> ring

lemma ysFull_max (height width : ℕ) (hh0 : 0 < height) (hw0 : 0 < width) :
    natMax ((List.range (height * width)).map (fun i => i / width)) = height - 1 := by
  apply le_antisymm
  · apply natMax_le
    intro a ha
    obtain ⟨i, hi, rfl⟩ := List.mem_map.mp ha
    have hilt := List.mem_range.mp hi
    have hdiv : i / width < height := by
      rw [Nat.div_lt_iff_lt_mul hw0]
      omega
    omega
  · apply le_natMax
    refine List.mem_map.mpr ⟨height * width - 1, ?_, ?_⟩
    · refine List.mem_range.mpr ?_
      have hp : 0 < height * width := Nat.mul_pos hh0 hw0
      omega
    · have hwle : width ≤ height * width := Nat.le_mul_of_pos_left width hh0
      have hsplit : height * width - 1 = (width - 1) + (height - 1) * width := by
        have hsub : (height - 1) * width = height * width - width := by
          rw [Nat.sub_mul, Nat.one_mul]
        omega
      rw [hsplit, Nat.add_mul_div_right _ _ hw0, Nat.div_eq_of_lt (by omega)]
      omega

lemma ysFull_min (height width : ℕ) (hh0 : 0 < height) (hw0 : 0 < width) :
    natMin ((List.range (height * width)).map (fun i => i / width)) = 0 :=
  Nat.eq_zero_of_le_zero (natMin_le
    (List.mem_map.mpr ⟨0, List.mem_range.mpr (Nat.mul_pos hh0 hw0), Nat.zero_div width⟩))

lemma xsFull_max (height width : ℕ) (hh0 : 0 < height) (hw0 : 0 < width) :
    natMax ((List.range (height * width)).map (fun i => i % width)) = width - 1 := by
  apply le_antisymm
  · apply natMax_le
    intro a ha
    obtain ⟨i, _, rfl⟩ := List.mem_map.mp ha
    have := Nat.mod_lt i hw0
    omega
  · apply le_natMax
    refine List.mem_map.mpr ⟨width - 1, ?_, ?_⟩
    · refine List.mem_range.mpr ?_
      have hwle : width ≤ height * width := Nat.le_mul_of_pos_left width hh0
      omega
    · exact Nat.mod_eq_of_lt (by omega)

lemma xsFull_min (height width : ℕ) (hh0 : 0 < height) (hw0 : 0 < width) :
    natMin ((List.range (height * width)).map (fun i => i % width)) = 0 :=
  Nat.eq_zero_of_le_zero (natMin_le
    (List.mem_map.mpr ⟨0, List.mem_range.mpr (Nat.mul_pos hh0 hw0), Nat.zero_mod width⟩))

lemma cast_lt_third_iff (y hdim : ℕ) :
    ((y : ℚ) < (hdim : ℚ) / 3) ↔ y < (hdim + 2) / 3 := by
  have h1 : ((y : ℚ) < (hdim : ℚ) / 3) ↔ 3 * y < hdim := by
    rw [lt_div_iff₀ (by norm_num : (0:ℚ) < 3)]
    constructor
    · intro h
      have h2 : ((3 * y : ℕ) : ℚ) < (hdim : ℚ) := by push_cast; nlinarith
      exact_mod_cast h2
    · intro h
      have h2 : ((3 * y : ℕ) : ℚ) < (hdim : ℚ) := by exact_mod_cast h
      push_cast at h2
      nlinarith
  rw [h1]
  omega

lemma two_thirds_le_cast_iff (y hdim : ℕ) :
    (2 * (hdim : ℚ) / 3 ≤ (y : ℚ)) ↔ (2 * hdim + 2) / 3 ≤ y := by
  have h1 : (2 * (hdim : ℚ) / 3 ≤ (y : ℚ)) ↔ 2 * hdim ≤ 3 * y := by
    rw [div_le_iff₀ (by norm_num : (0:ℚ) < 3)]
    constructor
    · intro h
      have h2 : ((2 * hdim : ℕ) : ℚ) ≤ ((3 * y : ℕ) : ℚ) := by push_cast; nlinarith
      exact_mod_cast h2
    · intro h
      have h2 : ((2 * hdim : ℕ) : ℚ) ≤ ((3 * y : ℕ) : ℚ) := by exact_mod_cast h
      push_cast at h2
      nlinarith
  rw [h1]
  omega

lemma cntTop_full (height width : ℕ) (hh0 : 0 < height) (hw0 : 0 < width) :
    ((List.range (height * width)).map (fun i => i / width)).countP
        (fun (y : ℕ) => decide ((y : ℚ) < (height : ℚ) / 3))
      = width * ((height + 2) / 3) := by
  rw [List.countP_map, countP_range_mul height width _ hw0]
  congr 1
  have hc : (List.range height).countP (fun (y : ℕ) => decide ((y : ℚ) < (height : ℚ) / 3))
      = (List.range height).countP (fun y => decide (y < (height + 2) / 3)) := by
    refine List.countP_congr (fun y _ => ?_)
    simp only [decide_eq_true_eq]
    exact cast_lt_third_iff y height
  rw [hc, countP_lt_range]
  omega

lemma cntBot_full (height width : ℕ) (hh0 : 0 < height) (hw0 : 0 < width) :
    ((List.range (height * width)).map (fun i => i / width)).countP
        (fun (y : ℕ) => decide (2 * (height : ℚ) / 3 ≤ (y : ℚ)))
      = width * (height - (2 * height + 2) / 3) := by
  rw [List.countP_map, countP_range_mul height width _ hw0]
  congr 1
  have hc : (List.range height).countP
        (fun (y : ℕ) => decide (2 * (height : ℚ) / 3 ≤ (y : ℚ)))
      = (List.range height).countP (fun y => decide ((2 * height + 2) / 3 ≤ y)) := by
    refine List.countP_congr (fun y _ => ?_)
    simp only [decide_eq_true_eq]
    exact two_thirds_le_cast_iff y height
  rw [hc, countP_ge_range]
  omega

lemma twenty_lt_pct (c n : ℕ) (hn : 0 < n) (hc : n < 5 * c) :
    (20 : ℚ) < (c : ℚ) / (n : ℚ) * 100 := by
  have hn' : (0 : ℚ) < (n : ℚ) := by exact_mod_cast hn
  rw [div_mul_eq_mul_div, lt_div_iff₀ hn']
  have hc' : (n : ℚ) < 5 * (c : ℚ) := by exact_mod_cast hc
  nlinarith

lemma analyze_full_eval (height width c : ℕ) (hh0 : 0 < height) (hw0 : 0 < width) :
    _analyze_color_location height width (List.replicate (height * width) c) c
      = ⟨_describe_regions
          (_analyze_regional_coverage
            ((List.range (height * width)).map (fun i => i / width))
            ((List.range (height * width)).map (fun i => i % width)) height width)
          (_find_primary_areas
            (_analyze_regional_coverage
              ((List.range (height * width)).map (fun i => i / width))
              ((List.range (height * width)).map (fun i => i % width)) height width)),
        _classify_distribution
          ((List.range (height * width)).map (fun i => i / width))
          ((List.range (height * width)).map (fun i => i % width)) height width,
        _find_primary_areas
          (_analyze_regional_coverage
            ((List.range (height * width)).map (fun i => i / width))
            ((List.range (height * width)).map (fun i => i % width)) height width),
        _analyze_regional_coverage
          ((List.range (height * width)).map (fun i => i / width))
          ((List.range (height * width)).map (fun i => i % width)) height width⟩ := by
  have hguard : ¬ ((List.replicate (height * width) c).length ≠ height * width) := by
    simp
  have hfilter : (List.range (height * width)).filter
      (fun i => decide ((List.replicate (height * width) c).getD i 0 = c))
      = List.range (height * width) := by
    refine List.filter_eq_self.mpr (fun i hi => ?_)
    refine decide_eq_true ?_
    have hilt := List.mem_range.mp hi
    simp [List.getD_eq_getElem?_getD, List.getElem?_replicate, hilt]
  have hne : ¬ (List.range (height * width) = []) := by
    rw [List.range_eq_nil]
    exact Nat.mul_ne_zero (by omega) (by omega)
  unfold _analyze_color_location
  rw [hfilter, if_neg hguard, if_neg hne]

lemma covFull_top_eq (height width : ℕ) (hh0 : 0 < height) (hw0 : 0 < width) :
    (_analyze_regional_coverage
        ((List.range (height * width)).map (fun i => i / width))
        ((List.range (height * width)).map (fun i => i % width)) height width).top
      = ((width * ((height + 2) / 3) : ℕ) : ℚ) / ((height * width : ℕ) : ℚ) * 100 := by
  have hlen : ¬ ((((List.range (height * width)).map (fun i => i / width)).length) = 0) := by
    simp only [List.length_map, List.length_range, Nat.mul_eq_zero]
    omega
  unfold _analyze_regional_coverage
  rw [if_neg hlen, cntTop_full height width hh0 hw0, List.length_map, List.length_range]

lemma covFull_bot_eq (height width : ℕ) (hh0 : 0 < height) (hw0 : 0 < width) :
    (_analyze_regional_coverage
        ((List.range (height * width)).map (fun i => i / width))
        ((List.range (height * width)).map (fun i => i % width)) height width).bottom
      = ((width * (height - (2 * height + 2) / 3) : ℕ) : ℚ)
          / ((height * width : ℕ) : ℚ) * 100 := by
  have hlen : ¬ ((((List.range (height * width)).map (fun i => i / width)).length) = 0) := by
    simp only [List.length_map, List.length_range, Nat.mul_eq_zero]
    omega
  unfold _analyze_regional_coverage
  rw [if_neg hlen, cntBot_full height width hh0 hw0, List.length_map, List.length_range]

lemma covFull_top_gt (height width : ℕ) (hh : 4 ≤ height) (hw0 : 0 < width) :
    (20 : ℚ) < (_analyze_regional_coverage
        ((List.range (height * width)).map (fun i => i / width))
        ((List.range (height * width)).map (fun i => i % width)) height width).top := by
  have hh0 : 0 < height := by omega
  rw [covFull_top_eq height width hh0 hw0]
  refine twenty_lt_pct _ _ (Nat.mul_pos hh0 hw0) ?_
  have hk : height < 5 * ((height + 2) / 3) := by omega
  calc height * width < (5 * ((height + 2) / 3)) * width :=
        (Nat.mul_lt_mul_right hw0).mpr hk
    _ = 5 * (width * ((height + 2) / 3)) := by ring

lemma covFull_bot_gt (height width : ℕ) (hh : 4 ≤ height) (hh5 : height ≠ 5)
    (hw0 : 0 < width) :
    (20 : ℚ) < (_analyze_regional_coverage
        ((List.range (height * width)).map (fun i => i / width))
        ((List.range (height * width)).map (fun i => i % width)) height width).bottom := by
  have hh0 : 0 < height := by omega
  rw [covFull_bot_eq height width hh0 hw0]
  refine twenty_lt_pct _ _ (Nat.mul_pos hh0 hw0) ?_
  have hk : height < 5 * (height - (2 * height + 2) / 3) := by omega
  calc height * width < (5 * (height - (2 * height + 2) / 3)) * width :=
        (Nat.mul_lt_mul_right hw0).mpr hk
    _ = 5 * (width * (height - (2 * height + 2) / 3)) := by ring

lemma primary_full_mid (cov : Coverage) (htop : 20 < cov.top)
    (hmid : 20 < cov.middle) (hbot : 20 < cov.bottom) :
    _find_primary_areas cov = ["top", "middle", "bottom"] := by
  unfold _find_primary_areas
  rw [if_pos htop, if_pos hmid, if_pos hbot]
  simp

lemma primary_full_nomid (cov : Coverage) (htop : 20 < cov.top)
    (hmid : ¬ (20 < cov.middle)) (hbot : 20 < cov.bottom) :
    _find_primary_areas cov = ["top", "bottom"] := by
  unfold _find_primary_areas
  rw [if_pos htop, if_neg hmid, if_pos hbot]
  simp

lemma describe_top_mid_bot (cov : Coverage) :
    _describe_regions cov ["top", "middle", "bottom"] = ["Top and bottom edges"] := by
  simp [_describe_regions, areaDescription, List.filterMap_cons]

lemma describe_top_bot (cov : Coverage) :
    _describe_regions cov ["top", "bottom"] = ["Top and bottom edges"] := by
  simp [_describe_regions, areaDescription, List.filterMap_cons]

lemma full_cluster_analysis (height width c : ℕ)
    (hh : 4 ≤ height) (hh5 : height ≠ 5) (hw : 4 ≤ width) :
    (_analyze_color_location height width (List.replicate (height * width) c) c).distribution
      = "widespread"
    ∧ (_analyze_color_location height width (List.replicate (height * width) c) c).regions
      = ["Top and bottom edges"] := by
  have hh0 : 0 < height := by omega
  have hw0 : 0 < width := by omega
  rw [analyze_full_eval height width c hh0 hw0]
  constructor
  · show _classify_distribution
        ((List.range (height * width)).map (fun i => i / width))
        ((List.range (height * width)).map (fun i => i % width)) height width
      = "widespread"
    have hlen : ¬ ((((List.range (height * width)).map (fun i => i / width)).length) = 0) := by
      simp only [List.length_map, List.length_range, Nat.mul_eq_zero]
      omega
    have condY : (0.7:ℝ) < ((natMax ((List.range (height * width)).map (fun i => i / width))
        - natMin ((List.range (height * width)).map (fun i => i / width)) : ℕ) : ℝ)
        / (height : ℝ) := by
      rw [ysFull_max height width hh0 hw0, ysFull_min height width hh0 hw0, Nat.sub_zero]
      exact (spread_gt_iff (height - 1) height hh0).mpr (by omega)
    have condX : (0.7:ℝ) < ((natMax ((List.range (height * width)).map (fun i => i % width))
        - natMin ((List.range (height * width)).map (fun i => i % width)) : ℕ) : ℝ)
        / (width : ℝ) := by
      rw [xsFull_max height width hh0 hw0, xsFull_min height width hh0 hw0, Nat.sub_zero]
      exact (spread_gt_iff (width - 1) width hw0).mpr (by omega)
    unfold _classify_distribution
    rw [if_neg hlen, if_pos ⟨condY, condX⟩]
  · show _describe_regions
        (_analyze_regional_coverage
          ((List.range (height * width)).map (fun i => i / width))
          ((List.range (height * width)).map (fun i => i % width)) height width)
        (_find_primary_areas
          (_analyze_regional_coverage
            ((List.range (height * width)).map (fun i => i / width))
            ((List.range (height * width)).map (fun i => i % width)) height width))
      = ["Top and bottom edges"]
    have htop := covFull_top_gt height width hh hw0
    have hbot := covFull_bot_gt height width hh hh5 hw0
    by_cases hmid : (20:ℚ) < (_analyze_regional_coverage
        ((List.range (height * width)).map (fun i => i / width))
        ((List.range (height * width)).map (fun i => i % width)) height width).middle
    · rw [primary_full_mid _ htop hmid hbot, describe_top_mid_bot]
    · rw [primary_full_nomid _ htop hmid hbot, describe_top_bot]

/-- C8 (amended): spatial analysis of a cluster assigned to every pixel of a
height×width image with both dimensions at least 4 yields distribution
"widespread", and (in exact arithmetic, for heights other than 5, where the
bottom third sits exactly at the 20% threshold) regions
["Top and bottom edges"] — not ["Throughout the image"]. -/
theorem c8_full_cluster_widespread_edges (height width c : ℕ)
    (hh : 4 ≤ height) (hh5 : height ≠ 5) (hw : 4 ≤ width) :
    (_analyze_color_location height width (List.replicate (height * width) c) c).distribution
      = "widespread"
    ∧ (_analyze_color_location height width (List.replicate (height * width) c) c).regions
      = ["Top and bottom edges"] :=
  full_cluster_analysis height width c hh hh5 hw

theorem c8_witness :
    (4 ≤ 6) ∧ ((6:ℕ) ≠ 5) ∧ (4 ≤ 4)
    ∧ (_analyze_color_location 6 4 (List.replicate (6 * 4) 2) 2).distribution
        = "widespread"
    ∧ (_analyze_color_location 6 4 (List.replicate (6 * 4) 2) 2).regions
        = ["Top and bottom edges"] :=
  ⟨by decide, by decide, by decide,
    (c8_full_cluster_widespread_edges 6 4 2 (by decide) (by decide) (by decide)).1,
    (c8_full_cluster_widespread_edges 6 4 2 (by decide) (by decide) (by decide)).2⟩

/-- C8, as stated, is false: on a 4×4 image fully covered by one cluster the
source returns regions ["Top and bottom edges"], not ["Throughout the
image"] (the distribution is indeed "widespread"). -/
theorem c8_counterexample :
    (_analyze_color_location 4 4 (List.replicate 16 0) 0).regions
      = ["Top and bottom edges"]
    ∧ (_analyze_color_location 4 4 (List.replicate 16 0) 0).regions
      ≠ ["Throughout the image"] := by
  have h := (full_cluster_analysis 4 4 0 (by decide) (by decide) (by decide)).2
  have h16 : (List.replicate (4 * 4) 0) = List.replicate 16 0 := rfl
  rw [h16] at h
  rw [h]
  exact ⟨rfl, by decide⟩

/-! ### Claims C5 and C6 — the extraction pipeline -/

/-- C6: whenever the body of the extraction raises, the wrapper returns the
empty list instead of propagating, and emptiness of the result is exactly
"the body raised or legitimately produced no entries". -/
theorem c6_extraction_never_raises (env : ExtractionEnv) (image : PImage)
    (num_colors max_size : ℕ) :
    (∀ e, extractColorsCore env image num_colors max_size = .error e →
      extract_dominant_colors env image num_colors max_size = [])
    ∧ (extract_dominant_colors env image num_colors max_size = []
        ↔ (∃ e, extractColorsCore env image num_colors max_size = .error e)
          ∨ extractColorsCore env image num_colors max_size = .ok []) := by
  constructor
  · intro e he
    unfold extract_dominant_colors
    rw [he]
  · unfold extract_dominant_colors
    cases h : extractColorsCore env image num_colors max_size with
    | ok l => simp
    | error e => simp

theorem c6_witness :
    extract_dominant_colors failEnv okImage 1 300 = []
    ∧ (extract_dominant_colors failEnv okImage 1 300 = []
        ↔ (∃ e, extractColorsCore failEnv okImage 1 300 = .error e)
          ∨ extractColorsCore failEnv okImage 1 300 = .ok []) :=
  ⟨(c6_extraction_never_raises failEnv okImage 1 300).1 ("kmeans failure") rfl,
    (c6_extraction_never_raises failEnv okImage 1 300).2⟩

/-- C5: under the scikit-learn interface guarantees (a successful fit
returns exactly `n_clusters` centres and a nonempty label vector), a
successful extraction returns exactly `num_colors` entries, sorted
descending by percentage, each percentage within [0, 100]; a failed body
yields the empty list. -/
theorem c5_extract_count_sorted_bounded (env : ExtractionEnv) (image : PImage)
    (num_colors max_size : ℕ)
    (hkm : ∀ k pts km, env.kmFit k pts = .ok km → km.centers.length = k)
    (hlab : ∀ k pts km, env.kmFit k pts = .ok km → 0 < km.labels.length) :
    (∀ out, extractColorsCore env image num_colors max_size = .ok out →
      out.length = num_colors
      ∧ List.Sorted pctGE out
      ∧ ∀ ec ∈ out, 0 ≤ ec.percentage ∧ ec.percentage ≤ 100)
    ∧ (∀ e, extractColorsCore env image num_colors max_size = .error e →
        extract_dominant_colors env image num_colors max_size = []) := by
  constructor
  · intro out hok
    unfold extractColorsCore at hok
    cases h1 : (if image.mode ≠ "RGB" then env.convert image ("RGB")
        else Except.ok image) with
    | error e =>
      rw [h1] at hok
      simp only [Except.bind] at hok
      exact Except.noConfusion hok
    | ok img1 =>
      rw [h1] at hok
      simp only [Except.bind] at hok
      cases h2 : (if max_size < max img1.width img1.height then
          env.resample img1
            (img1.width * max_size / max img1.width img1.height,
              img1.height * max_size / max img1.width img1.height)
        else Except.ok img1) with
      | error e =>
        rw [h2] at hok
        simp only [Except.bind] at hok
        exact Except.noConfusion hok
      | ok img2 =>
        rw [h2] at hok
        simp only [Except.bind] at hok
        cases h3 : env.kmFit num_colors (pickPixels img2 num_colors) with
        | error e =>
          rw [h3] at hok
          simp only [Except.bind] at hok
          exact Except.noConfusion hok
        | ok km =>
          rw [h3] at hok
          simp only [Except.bind, Except.ok.injEq] at hok
          subst hok
          refine ⟨?_, ?_, ?_⟩
          · rw [(List.perm_insertionSort pctGE (mkColorInfo env img2 km)).length_eq]
            unfold mkColorInfo
            rw [List.length_map, List.enum_length]
            exact hkm num_colors (pickPixels img2 num_colors) km h3
          · exact List.sorted_insertionSort pctGE (mkColorInfo env img2 km)
          · intro ec hec
            have hmem := (List.perm_insertionSort pctGE (mkColorInfo env img2 km)).mem_iff.mp hec
            unfold mkColorInfo at hmem
            obtain ⟨ic, _, rfl⟩ := List.mem_map.mp hmem
            exact pct_bounds _ _ (hlab num_colors (pickPixels img2 num_colors) km h3)
              (List.countP_le_length _)
  · intro e he
    unfold extract_dominant_colors
    rw [he]

theorem c5_witness :
    (extract_dominant_colors okEnv okImage 1 300).length = 1
    ∧ List.Sorted pctGE (extract_dominant_colors okEnv okImage 1 300)
    ∧ 0 ≤ (extract_dominant_colors okEnv okImage 1 300).head!.percentage
    ∧ (extract_dominant_colors okEnv okImage 1 300).head!.percentage ≤ 100 := by
  have hkm : ∀ k pts km, okEnv.kmFit k pts = .ok km → km.centers.length = k := by
    intro k pts km h
    simp only [okEnv] at h
    split at h
    · cases h
      simp
    · cases h
  have hlab : ∀ k pts km, okEnv.kmFit k pts = .ok km → 0 < km.labels.length := by
    intro k pts km h
    simp only [okEnv] at h
    split at h
    next hk =>
      cases h
      simpa using hk
    next => cases h
  have h := (c5_extract_count_sorted_bounded okEnv okImage 1 300 hkm hlab).1
    (extract_dominant_colors okEnv okImage 1 300) rfl
  have hne : extract_dominant_colors okEnv okImage 1 300 ≠ [] := by
    intro hempty
    have := h.1
    rw [hempty] at this
    simp at this
  exact ⟨h.1, h.2.1, (h.2.2 _ (List.head!_mem_self hne)).1, (h.2.2 _ (List.head!_mem_self hne)).2⟩
